import Mathlib

/-!
Shallow embedding of the StudyPad knowledge-quiz session controller and its
AI-flow adapters, together with proofs of the behavioural properties stated
in the specification.

The primary controller source is the newest revision of the
`KnowledgeQuizSession` component (`src/unnamed/part_002`); an older revision
of the same component (the third segment of
`src/components/quiz/KnowledgeQuizSession.tsx`, called the "tsx revision"
below) is embedded separately where its behaviour differs.  The flow adapters
are embedded from `src/ai/flows/evaluate-answer-flow.ts`,
`src/ai/flows/knowledge-quiz-flow.ts` and `src/ai/flows/text-to-speech-flow.ts`.

External collaborator calls (Genkit prompts, ElevenLabs, the summariser) are
modelled as explicit result parameters (`Except`/`Option` values) supplied to
the embedded step functions, so a step function applied to a result models one
resolved asynchronous call.
-/

namespace StudyPad

/-- The `currentStep` union type of the session component:
`'config' | 'introduction' | 'questioning' | 'summary' | 'loading' | 'error'`. -/
inductive Step where
  | config
  | introduction
  | questioning
  | summary
  | loading
  | error
deriving DecidableEq, Repr

/-- The `SupportedLanguages` zod enum from `src/ai/flows/types.ts`. -/
inductive SupportedLanguage where
  | English
  | Spanish
  | French
  | German
  | ChineseSimplified
  | Japanese
  | Korean
  | Arabic
  | Hindi
  | Swahili
  | Portuguese
deriving DecidableEq, Repr

/-- The literal value of each `SupportedLanguages` enum member. -/
def languageName : SupportedLanguage → String
  | .English => "English"
  | .Spanish => "Spanish"
  | .French => "French"
  | .German => "German"
  | .ChineseSimplified => "Chinese (Simplified)"
  | .Japanese => "Japanese"
  | .Korean => "Korean"
  | .Arabic => "Arabic"
  | .Hindi => "Hindi"
  | .Swahili => "Swahili"
  | .Portuguese => "Portuguese"

/-- `const MAX_POINTS_PER_QUESTION = 5` (part_002 line 59). -/
def MAX_POINTS_PER_QUESTION : Int := 5

/-- `const REVIEW_SCORE_THRESHOLD = 3` (part_002 line 60). -/
def REVIEW_SCORE_THRESHOLD : Int := 3

/-! JavaScript string primitives.  Lean's own `String.trim`, `String.toLower`
and `String.replace` are byte-position-based well-founded definitions that do
not reduce inside the kernel, so the JS operations are modelled directly on
the character list. -/

/-- `String.prototype.trim`: strip leading and trailing whitespace. -/
def jsTrim (s : String) : String :=
  String.mk (((s.data.dropWhile Char.isWhitespace).reverse.dropWhile Char.isWhitespace).reverse)

/-- `String.prototype.toLowerCase` (ASCII, as used by the source's checks). -/
def jsToLower (s : String) : String :=
  String.mk (s.data.map Char.toLower)

/-- Replace every occurrence of `pat` (non-empty) by `rep`, scanning left to
right — `String.prototype.replace` with a `/g` regex of a literal pattern. -/
def replaceAllList (pat rep : List Char) : List Char → List Char
  | [] => []
  | c :: rest =>
    if pat ≠ [] ∧ List.isPrefixOf pat (c :: rest) then
      rep ++ replaceAllList pat rep (List.drop (pat.length - 1) rest)
    else c :: replaceAllList pat rep rest
termination_by l => l.length
decreasing_by
  · simp only [List.length_cons]
    have := List.length_drop (pat.length - 1) rest
    omega
  · simp only [List.length_cons]
    omega

/-- `detail.replace(/x/g, y)` on strings. -/
def jsReplaceAll (s pat rep : String) : String :=
  String.mk (replaceAllList pat.data rep.data s.data)

/-- The `HistoryItem` interface of part_002.  Optional fields are `Option`;
`awardedPoints` is absent until the answer has been evaluated. -/
structure HistoryItem where
  question : String
  answer : String
  explanation : Option String := none
  detailedImagePrompt : Option String := none
  generatedImageDataUri : Option String := none
  awardedPoints : Option Int := none
  possiblePoints : Option Int := none
deriving DecidableEq, Repr

/-- The predicate used throughout part_002 to pick review items:
`typeof item.awardedPoints === 'number' && item.awardedPoints < REVIEW_SCORE_THRESHOLD`. -/
def isReviewEligible (item : HistoryItem) : Bool := match item.awardedPoints with
  | some p => decide (p < REVIEW_SCORE_THRESHOLD)
  | none => false

/-- `finalHistory.reduce((acc, curr) => acc + (curr.awardedPoints || 0), 0)`
(part_002 line 402).  `x || 0` on a present number is the number itself
(`0 || 0` is `0`), so an absent score contributes `0`. -/
def scoreFold (h : List HistoryItem) : Int := h.foldl (fun acc curr => acc + curr.awardedPoints.getD 0) 0

/-- The dedupe step of `handleStartReview` (part_002 line 547):
`.filter((v,i,a)=>a.findIndex(t=>(t.question === v.question))===i)` keeps
exactly the first occurrence of each question; embedded as first-occurrence
deduplication by question. -/
def dedupByQuestion : List HistoryItem → List HistoryItem
  | [] => []
  | x :: xs => x :: dedupByQuestion (xs.filter (fun y => !(y.question == x.question)))
termination_by l => l.length
decreasing_by
  simp only [List.length_cons]
  exact Nat.lt_succ_of_le (List.length_filter_le _ _)

/-- `questionsToReviewNow` from `handleStartReview` (part_002 line 544):
history items that are scored below threshold and whose question is not
already in `incorrectlyAnsweredQuestions`. -/
def questionsToReviewNow (history queue : List HistoryItem) : List HistoryItem := history.filter (fun item =>
    isReviewEligible item && !(queue.any (fun r => r.question == item.question)))

/-! ### Flow adapters -/

/-- A raw JSON field value as seen by the defensive `typeof` checks:
either a string or some non-string value. -/
inductive JsValue where
  | strVal (s : String)
  | nonString
deriving DecidableEq, Repr

/-- The raw output of the underlying question-generation Genkit flow, before
the `knowledgeQuizFlow` wrapper normalises it.  `nextQuestion := none` models
an absent or `null` field. -/
structure RawQuizOutput where
  nextQuestion : Option JsValue
deriving DecidableEq, Repr

/-- The exported `knowledgeQuizFlow` wrapper
(`src/ai/flows/knowledge-quiz-flow.ts` lines 33-46): absent output, absent or
null `nextQuestion`, and non-string `nextQuestion` are all normalised to
`{ nextQuestion: "" }`; a string value (empty or not) is passed through.
`flowOutput := none` models `!flowOutput`. -/
def knowledgeQuizFlow (flowOutput : Option RawQuizOutput) : String := match flowOutput with
  | none => ""
  | some o =>
    match o.nextQuestion with
    | none => ""
    | some (.strVal s) => s
    | some .nonString => ""

/-- The truthiness test the controller applies to a next-question value:
`output.nextQuestion && output.nextQuestion.trim() !== ""`
(part_002 lines 330 and 365). -/
def nextQuestionPresent (q : String) : Bool := !(q == "") && !(jsTrim q == "")

/-- Raw output of the `evaluateAnswerPrompt` call before the flow's own
validity checks.  `awardedScore := none` models a value that is not a number;
`explanation := none` models a missing field (the empty string is separately
rejected by the `!output.explanation` truthiness check). -/
structure RawEvalOutput where
  awardedScore : Option Int
  explanation : Option String
  imageSuggestion : Option String
deriving DecidableEq, Repr

/-- The normalised `EvaluateAnswerOutput` as consumed by part_002.
`detailedImagePrompt` and `generatedImageDataUri` are read by the controller
but never produced by the current flow schema, so they default to `none`. -/
structure EvaluateAnswerOutput where
  awardedScore : Option Int
  explanation : String
  imageSuggestion : Option String := none
  detailedImagePrompt : Option String := none
  generatedImageDataUri : Option String := none
deriving DecidableEq, Repr

/-- The per-language fallback text of `evaluateAnswerGenkitFlow` for an
invalid or incomplete AI output (`src/ai/flows/evaluate-answer-flow.ts`
lines 96-114), with `${langForMessage}` already substituted in each branch.
The source also has branches for Luganda, Kinyarwanda and Amharic, but those
values are not members of the `SupportedLanguages` enum, so they are
unreachable and omitted here. -/
def invalidEvalFallbackText : SupportedLanguage → String
  | .Spanish => "No se pudo determinar la puntuación ni proporcionar una explicación detallada en Spanish en este momento. Por favor, asegúrese de que su respuesta sea clara."
  | .French => "Impossible de déterminer le score ou de fournir une explication détaillée en French pour le moment. Veuillez vous assurer que votre réponse est claire."
  | .German => "Die Punktzahl konnte nicht ermittelt oder eine detaillierte Erklärung in German erstellt werden. Bitte stellen Sie sicher, dass Ihre Antwort klar ist."
  | .ChineseSimplified => "目前无法确定分数或提供Chinese (Simplified)的详细解释。请确保您的回答清晰。"
  | .Japanese => "現時点ではスコアを決定したり、Japaneseでの詳細な説明を提供したりすることができませんでした。回答が明確であることを確認してください。"
  | .Korean => "현재 점수를 결정하거나 Korean로 자세한 설명을 제공할 수 없습니다. 답변을 명확히 해주십시오."
  | .Arabic => "تعذر تحديد النتيجة أو تقديم شرح مفصل بـ Arabic في الوقت الحالي. يرجى التأكد من أن إجابتك واضحة."
  | .Hindi => "अभी स्कोर निर्धारित नहीं किया जा सका या Hindi में विस्तृत स्पष्टीकरण प्रदान नहीं किया जा सका। कृपया सुनिश्चित करें कि आपका उत्तर स्पष्ट है।"
  | .Swahili => "Imeshindwa kubaini alama au kutoa maelezo ya kina kwa Swahili kwa wakati huu. Tafadhali hakikisha jibu lako liko wazi."
  | .Portuguese => "Não foi possível determinar a pontuação ou fornecer uma explicação detalhada em Portuguese neste momento. Por favor, certifique-se de que sua resposta está clara."
  | .English => "Could not determine the score or provide a detailed explanation in English at this time. Please ensure your answer is clear."

/-- The per-language fallback text of the `catch` branch of
`evaluateAnswerGenkitFlow` (`src/ai/flows/evaluate-answer-flow.ts` lines
115-132).  `detail` is the thrown error message after the `<`/`>`
sanitisation; only Spanish has a dedicated branch in the source. -/
def evalErrorFallbackText (lang : SupportedLanguage) (topic detail : String) : String :=
  let detail := jsReplaceAll (jsReplaceAll detail "<" "&lt;") ">" "&gt;"
  match lang with
  | .Spanish =>
      "Ocurrió un error inesperado en el servidor al evaluar su respuesta para \"" ++ topic ++
      "\" en Spanish. Esto podría deberse a un problema temporal con el servicio de IA, la configuración o un tiempo de espera de la función. Por favor, revise los registros del servidor si el problema persiste. (Detalles: " ++
      detail ++ ")"
  | _ =>
      "An unexpected server error occurred while evaluating your answer for \"" ++ topic ++
      "\" in " ++ languageName lang ++
      ". This might be due to a temporary issue with the AI service (e.g., model overloaded), configuration, or a function timeout. Please check server logs if the problem persists. (Details: " ++
      detail ++ ")"

/-- `const langForMessage = input.language || 'English'`. -/
def langForMessage (language : Option SupportedLanguage) : SupportedLanguage := language.getD .English

/-- `evaluateAnswerGenkitFlow` (`src/ai/flows/evaluate-answer-flow.ts` lines
86-135).  The prompt call is modelled by `promptRes`: `.error msg` models a
throw with message `msg`, `.ok none` models `!output`, and an `.ok (some o)`
is subject to the flow's `typeof output.awardedScore !== 'number' ||
!output.explanation` check.  Every branch returns; the flow never throws. -/
def evaluateAnswerGenkitFlow (language : Option SupportedLanguage) (topic : String)
    (promptRes : Except String (Option RawEvalOutput)) : EvaluateAnswerOutput := match promptRes with
  | .ok none =>
      { awardedScore := some 0
        explanation := invalidEvalFallbackText (langForMessage language)
        imageSuggestion := none }
  | .ok (some o) =>
      match o.awardedScore, o.explanation with
      | some sc, some e =>
          if e == "" then
            { awardedScore := some 0
              explanation := invalidEvalFallbackText (langForMessage language)
              imageSuggestion := none }
          else
            { awardedScore := some sc, explanation := e, imageSuggestion := o.imageSuggestion }
      | _, _ =>
          { awardedScore := some 0
            explanation := invalidEvalFallbackText (langForMessage language)
            imageSuggestion := none }
  | .error msg =>
      { awardedScore := some 0
        explanation := evalErrorFallbackText (langForMessage language) topic msg
        imageSuggestion := none }

/-- `TextToSpeechOutput` of `src/ai/flows/text-to-speech-flow.ts`:
`audioDataUri` is absent when generation failed. -/
structure TextToSpeechOutput where
  audioDataUri : Option String
deriving DecidableEq, Repr

/-- `textToSpeechGenkitFlow` (`src/ai/flows/text-to-speech-flow.ts` lines
29-98).  `apiKey := none` models an unset `ELEVENLABS_API_KEY` (`!apiKey` is
also true for the empty string); `gen` models the ElevenLabs call, returning
the received chunks or a throw.  The base64 rendering of the audio buffer is
modelled by joining the chunks; only presence or absence of audio matters to
the properties proved below.  Every branch returns `{ audioDataUri }`; the
flow never throws. -/
def textToSpeechGenkitFlow (apiKey : Option String) (text : String)
    (gen : Except Unit (List String)) : TextToSpeechOutput := match apiKey with
  | none => { audioDataUri := none }
  | some key =>
    if key == "" then { audioDataUri := none }
    else if text == "" || jsTrim text == "" then { audioDataUri := none }
    else
      match gen with
      | .error _ => { audioDataUri := none }
      | .ok chunks =>
        if chunks == [] then { audioDataUri := none }
        else { audioDataUri := some ("data:audio/mpeg;base64," ++ String.join chunks) }

/-! ### Session state (the `useState` fields of part_002) -/

/-- The state of one `KnowledgeQuizSession` instance: every `useState` cell of
part_002 that participates in the session data model.  Defaults are the
`useState` initial values. -/
structure Session where
  currentStep : Step := .config
  topicIntroductionText : Option String := none
  currentQuestionText : Option String := none
  history : List HistoryItem := []
  incorrectlyAnsweredQuestions : List HistoryItem := []
  isReviewMode : Bool := false
  currentReviewQuestionIndex : Nat := 0
  summaryText : Option String := none
  furtherLearningSuggestions : Option (List String) := none
  errorMessage : Option String := none
  topic : String := ""
  educationLevel : String := "HighSchool"
  language : SupportedLanguage := .English
  hasPdfFile : Bool := false
  configPdfDataUri : Option String := none
  isPdfViewerOpen : Bool := false
  isLoading : Bool := false
  isEvaluating : Bool := false
  isGeneratingImage : Bool := false
  currentExplanation : Option String := none
  currentDetailedImagePrompt : Option String := none
  currentGeneratedImageDataUri : Option String := none
  showExplanationSection : Bool := false
  currentAwardedPoints : Option Int := none
  currentUserScore : Int := 0
  currentTotalPossibleScore : Int := 0
  currentAudioUri : Option String := none
  isFetchingAudio : Bool := false
deriving DecidableEq, Repr

/-- The component's initial state. -/
def initialSession : Session := {}

/-! ### Narration channel -/

/-- The audio URI one `fetchAndPlayNarration` call (part_002 lines 213-263)
leaves in `currentAudioUri`, given the resolved text-to-speech result
(`.error ()` models a throw of the awaited `textToSpeech` call).  Empty or
whitespace-only text short-circuits without issuing any request. -/
def narrationResultUri (textToNarrate : String)
    (ttsRes : Except Unit TextToSpeechOutput) : Option String :=
  if textToNarrate == "" || jsTrim textToNarrate == "" then none
  else
    match ttsRes with
    | .ok out => out.audioDataUri
    | .error _ => none

/-- The state effect of one settled `fetchAndPlayNarration` call: every path
of the handler ends with `setIsFetchingAudio(false)` and writes
`currentAudioUri` (the produced URI, or `null` on blank text, a throw, or an
absent-audio result); no other session cell is touched. -/
def fetchAndPlayNarration (s : Session) (textToNarrate : String)
    (ttsRes : Except Unit TextToSpeechOutput) : Session :=
  { s with currentAudioUri := narrationResultUri textToNarrate ttsRes,
           isFetchingAudio := false }

/-- Whether `fetchAndPlayNarration` reaches the `textToSpeech` call at all:
`if (!textToNarrate || textToNarrate.trim() === "") { ...; return; }`
(part_002 lines 216-221). -/
def narrationIssuesRequest (textToNarrate : String) : Bool := !(textToNarrate == "" || jsTrim textToNarrate == "")

/-- Interleaving model of the narration channel.  `live` is the
`currentAudioUri` cell tagged with the identifier of the `fetchAndPlayNarration`
call whose completion wrote it. -/
structure NarrationChannel where
  live : Option (Nat × String) := none
  isFetchingAudio : Bool := false
deriving DecidableEq, Repr

/-- One observable event of the narration channel:
`issue id` is the synchronous prefix of `fetchAndPlayNarration` for non-blank
text (`setIsFetchingAudio(true); setCurrentAudioUri(null)`), and
`complete id res` is the continuation after `await textToSpeech(...)` resolves
with audio `res` (or none, covering a throw and an absent URI alike). -/
inductive NarrationEvent where
  | issue (id : Nat)
  | complete (id : Nat) (res : Option String)
deriving DecidableEq, Repr

/-- The channel transition.  The source compares no request token at
completion time: the continuation assigns `currentAudioUri` unconditionally,
whichever request it belongs to. -/
def narrationStep (c : NarrationChannel) : NarrationEvent → NarrationChannel
  | .issue _ => { c with live := none, isFetchingAudio := true }
  | .complete id res =>
    match res with
    | some uri => { live := some (id, uri), isFetchingAudio := false }
    | none => { live := none, isFetchingAudio := false }

/-- Run a trace of narration events from the idle channel. -/
def narrationRun (es : List NarrationEvent) : NarrationChannel := es.foldl narrationStep {}

/-- The most recently issued request identifier of a trace. -/
def latestIssued (es : List NarrationEvent) : Option Nat := es.foldl (fun acc e => match e with | .issue id => some id | .complete _ _ => acc) none

/-- A trace is a plausible interleaving when requests are issued with strictly
increasing identifiers and each completion belongs to a previously issued,
not yet completed request. -/
def traceWFGo : List NarrationEvent → List Nat → List Nat → Option Unit
  | [], _, _ => some ()
  | .issue id :: rest, issued, completed =>
      if issued.all (fun j => j < id) then traceWFGo rest (id :: issued) completed
      else none
  | .complete id _ :: rest, issued, completed =>
      if issued.contains id && !(completed.contains id) then
        traceWFGo rest issued (id :: completed)
      else none

/-- A trace is a plausible interleaving when requests are issued with strictly
increasing identifiers and each completion belongs to a previously issued,
not yet completed request. -/
def TraceWF (es : List NarrationEvent) : Bool := (traceWFGo es [] []).isSome

/-! ### Controller step functions (part_002) -/

/-- Index of the first occurrence of `needle`, scanning from offset `i`
(`String.prototype.indexOf`). -/
def indexOfSubstrAux (needle : List Char) : List Char → Nat → Option Nat
  | [], i => if List.isPrefixOf needle [] then some i else none
  | c :: t, i =>
    if List.isPrefixOf needle (c :: t) then some i else indexOfSubstrAux needle t (i + 1)

/-- `needle.includes`-style substring test. -/
def containsSubstr (hay needle : String) : Bool :=
  (indexOfSubstrAux needle.data hay.data 0).isSome

/-- The usability check `fetchTopicIntroduction` applies to the collaborator's
introduction text (part_002 line 283). -/
def introTextUsable (t : String) : Bool :=
  !(t == "") && !(containsSubstr (jsToLower t) "unexpected server error")
    && !(containsSubstr (jsToLower t) "model not found")
    && !(containsSubstr (jsToLower t) "could not generate")

/-- The `displayError` computation of `fetchTopicIntroduction`'s invalid-text
branch (part_002 lines 292-299), including the trailing
`" Check server logs or try again."`. -/
def introDisplayError (t topicP : String) (langP : SupportedLanguage) : String :=
  let base :=
    if t == "" then
      "Error generating introduction for \"" ++ topicP ++ "\" in " ++ languageName langP ++ "."
    else t
  let d := if !(t == "") && containsSubstr t "Details: " then
      "Introduction Error: " ++
        String.mk (t.data.drop ((indexOfSubstrAux "Details: ".data t.data 0).getD 0))
    else if !(t == "") && containsSubstr t "could not generate" then t
    else base
  d ++ " Check server logs or try again."

/-- `fetchTopicIntroduction` (part_002 lines 266-310) applied to one resolved
introduction call (`introRes`, `.error msg` modelling a throw) and the
narration it may trigger. -/
def fetchTopicIntroduction (s : Session) (topicP : String) (langP : SupportedLanguage)
    (introRes : Except String String) (ttsRes : Except Unit TextToSpeechOutput) : Session := let s := { s with isLoading := true, currentStep := .loading, errorMessage := none }
  match introRes with
  | .ok t =>
    if introTextUsable t then
      let s := { s with topicIntroductionText := some t }
      let s := fetchAndPlayNarration s t ttsRes
      { s with currentStep := .introduction, isLoading := false }
    else
      { s with errorMessage := some (introDisplayError t topicP langP),
               currentStep := .error, isLoading := false }
  | .error msg =>
      { s with errorMessage := some ("Sorry, couldn\x27t get topic introduction: " ++ msg ++
                       ". Try again or check logs."),
               currentStep := .error, isLoading := false }

/-- The configuration form data (topic, level, language) submitted to
`handleConfigSubmit`. -/
structure ConfigFormData where
  topic : String
  educationLevel : String
  language : SupportedLanguage
deriving DecidableEq, Repr

/-- `handleConfigSubmit` (part_002 lines 120-163): resets the session data,
processes the optional PDF (`pdfRes := some r` models a selected file whose
`readFileAsDataURI` resolved to `r`), stores the form values and fetches the
topic introduction. -/
def handleConfigSubmit (s : Session) (data : ConfigFormData)
    (pdfRes : Option (Except String String)) (introRes : Except String String)
    (ttsRes : Except Unit TextToSpeechOutput) : Session :=
  let s := { s with isLoading := true, currentStep := .loading, errorMessage := none,
                    topicIntroductionText := none, currentAudioUri := none,
                    history := [], incorrectlyAnsweredQuestions := [],
                    isReviewMode := false, currentReviewQuestionIndex := 0,
                    currentUserScore := 0, currentTotalPossibleScore := 0 }
  match pdfRes with
  | some (.error msg) =>
      { s with errorMessage := some ("Failed to process PDF: " ++ msg ++
                       ". Please try again or proceed without it."),
               isLoading := false, currentStep := .config }
  | some (.ok uri) =>
      let s := { s with configPdfDataUri := some uri, hasPdfFile := true,
                        topic := data.topic, educationLevel := data.educationLevel,
                        language := data.language }
      fetchTopicIntroduction s data.topic data.language introRes ttsRes
  | none =>
      let s := { s with configPdfDataUri := none, hasPdfFile := false,
                        topic := data.topic, educationLevel := data.educationLevel,
                        language := data.language }
      fetchTopicIntroduction s data.topic data.language introRes ttsRes

/-- The output of the quiz-summary collaborator consumed by `handleQuizEnd`. -/
structure QuizSummaryOutput where
  summary : String
  furtherLearningSuggestions : Option (List String)
deriving DecidableEq, Repr

/-- `handleQuizEnd` (part_002 lines 381-420) applied to one resolved summary
call.  On a usable summary it re-folds `finalHistory` into both score cells
(lines 402-403); an empty summary or a throw is fatal to the phase. -/
def handleQuizEnd (s : Session) (topicP : String) (finalHistory : List HistoryItem)
    (summaryRes : Except String QuizSummaryOutput)
    (ttsRes : Except Unit TextToSpeechOutput) : Session := let s := { s with isLoading := true, currentStep := .loading, errorMessage := none }
  match summaryRes with
  | .ok out =>
    if !(out.summary == "") && !(jsTrim out.summary == "") then
      let s := { s with summaryText := some out.summary,
                        furtherLearningSuggestions := out.furtherLearningSuggestions,
                        currentUserScore := scoreFold finalHistory,
                        currentTotalPossibleScore := (finalHistory.length : Int) * MAX_POINTS_PER_QUESTION }
      let s := fetchAndPlayNarration s out.summary ttsRes
      { s with currentStep := .summary, isLoading := false }
    else
      { s with errorMessage := some ("Could not generate a summary for \"" ++ topicP ++ "\"." ++
                       (if finalHistory.length == 0 then " No questions were answered."
                        else " An issue occurred.")),
               currentStep := .error, isLoading := false }
  | .error msg =>
      { s with errorMessage := some ("Failed to get quiz summary: " ++ msg),
               currentStep := .error, isLoading := false }

/-- `fetchInitialQuestion` (part_002 lines 312-348): a present next question
moves to `questioning`; an empty or whitespace-only one proceeds to
`handleQuizEnd` with an empty history (after noting an error message); only a
throw of the question source is fatal. -/
def fetchInitialQuestion (s : Session) (topicP : String)
    (quizRes : Except String String) (qTts : Except Unit TextToSpeechOutput)
    (summaryRes : Except String QuizSummaryOutput)
    (sumTts : Except Unit TextToSpeechOutput) : Session :=
  let s := { s with isLoading := true, currentStep := .loading, errorMessage := none,
                    showExplanationSection := false, currentExplanation := none,
                    currentDetailedImagePrompt := none, currentGeneratedImageDataUri := none,
                    currentAwardedPoints := none, currentAudioUri := none }
  match quizRes with
  | .ok q =>
    if nextQuestionPresent q then
      let s := { s with currentQuestionText := some q }
      let s := fetchAndPlayNarration s q qTts
      { s with currentStep := .questioning, isLoading := false }
    else
      let s := { s with errorMessage := some ("Could not generate first question for \"" ++ topicP ++ "\".") }
      let s := handleQuizEnd s topicP [] summaryRes sumTts
      { s with isLoading := false }
  | .error msg =>
      { s with errorMessage := some ("Sorry, couldn\x27t start quiz: " ++ msg ++ ". Try again or check logs."),
               currentStep := .error, isLoading := false }

/-- `fetchNextQuestion` (part_002 lines 350-379): identical branching to the
initial fetch, but the empty/absent signal is the normal end of the quiz and
`handleQuizEnd` receives the running history. -/
def fetchNextQuestion (s : Session) (topicP : String) (currentHistoryParam : List HistoryItem)
    (quizRes : Except String String) (qTts : Except Unit TextToSpeechOutput)
    (summaryRes : Except String QuizSummaryOutput)
    (sumTts : Except Unit TextToSpeechOutput) : Session := let s := { s with isLoading := true, currentStep := .loading, errorMessage := none }
  match quizRes with
  | .ok q =>
    if nextQuestionPresent q then
      let s := { s with currentQuestionText := some q }
      let s := fetchAndPlayNarration s q qTts
      { s with currentStep := .questioning, isLoading := false }
    else
      let s := handleQuizEnd s topicP currentHistoryParam summaryRes sumTts
      { s with isLoading := false }
  | .error msg =>
      { s with errorMessage := some ("Sorry, couldn\x27t get next question: " ++ msg ++
                       ". Try again or check logs."),
               currentStep := .error, isLoading := false }

/-- JavaScript truthiness of an optional string: present and non-empty. -/
def optTruthy (o : Option String) : Bool := match o with
  | some v => !(v == "")
  | none => false

/-- `handleAnswerSubmit` (part_002 lines 422-508) applied to one resolved
evaluation call (`evalRes`, `.error msg` modelling a throw of the awaited
server action), the optional image-synthesis call and the explanation
narration.  The success path appends a `HistoryItem` and bumps both score
cells by the awarded score and the per-question maximum (lines 486-496); the
throw path stays on `questioning` with a local error message. -/
def handleAnswerSubmit (s : Session) (answer : String)
    (evalRes : Except String EvaluateAnswerOutput)
    (imageRes : Except Unit (Option String))
    (expTts : Except Unit TextToSpeechOutput) : Session := let s := { s with isEvaluating := true, currentAudioUri := none }
  match evalRes with
  | .ok output =>
    let s := { s with currentExplanation := some output.explanation,
                      currentDetailedImagePrompt := output.detailedImagePrompt,
                      currentAwardedPoints := output.awardedScore,
                      showExplanationSection := true }
    let finalImageStart := if optTruthy output.generatedImageDataUri then output.generatedImageDataUri else none
    let imageBranch := optTruthy output.detailedImagePrompt &&
          (!(optTruthy output.generatedImageDataUri) ||
            (jsTrim (output.generatedImageDataUri.getD "") == ""))
    let genUri : Option String :=
      if imageBranch then
        match imageRes with
        | .ok (some uri) => some uri
        | .ok none => none
        | .error _ => none
      else if optTruthy output.generatedImageDataUri then output.generatedImageDataUri
      else none
    let finalImage : Option String :=
      if imageBranch then
        match imageRes with
        | .ok (some uri) => some uri
        | .ok none => finalImageStart
        | .error _ => finalImageStart
      else finalImageStart
    let s := { s with currentGeneratedImageDataUri := genUri, isGeneratingImage := false }
    let s := if !(output.explanation == "") then fetchAndPlayNarration s output.explanation expTts
      else s
    let newHistoryItem : HistoryItem :=
      { question := s.currentQuestionText.getD ""
        answer := answer
        explanation := some output.explanation
        detailedImagePrompt := output.detailedImagePrompt
        generatedImageDataUri := finalImage
        awardedPoints := output.awardedScore
        possiblePoints := some MAX_POINTS_PER_QUESTION }
    let s := { s with history := s.history ++ [newHistoryItem] }
    let s := match output.awardedScore with
      | some v =>
        let s := { s with currentUserScore := s.currentUserScore + v,
                          currentTotalPossibleScore := s.currentTotalPossibleScore + MAX_POINTS_PER_QUESTION }
        if v < REVIEW_SCORE_THRESHOLD then
          { s with incorrectlyAnsweredQuestions := s.incorrectlyAnsweredQuestions ++ [newHistoryItem] }
        else s
      | none => s
    { s with isEvaluating := false }
  | .error msg =>
      { s with errorMessage := some ("Error processing answer: " ++ msg ++ ". Try again."),
               currentStep := .questioning, showExplanationSection := false,
               isEvaluating := false }

/-- `handleProceedToNextQuestion` (part_002 lines 510-541): advances the
review cursor (exiting review into `handleQuizEnd` when the queue is
exhausted) or fetches the next fresh question. -/
def handleProceedToNextQuestion (s : Session)
    (quizRes : Except String String) (qTts : Except Unit TextToSpeechOutput)
    (summaryRes : Except String QuizSummaryOutput)
    (sumTts : Except Unit TextToSpeechOutput)
    (reviewTts : Except Unit TextToSpeechOutput) : Session :=
  let s := { s with showExplanationSection := false, currentExplanation := none,
                    currentDetailedImagePrompt := none, currentGeneratedImageDataUri := none,
                    currentAwardedPoints := none, currentAudioUri := none }
  if s.isReviewMode then
    let nextReviewIdx := s.currentReviewQuestionIndex + 1
    if h : nextReviewIdx < s.incorrectlyAnsweredQuestions.length then
      let nextReviewQItem := s.incorrectlyAnsweredQuestions.get ⟨nextReviewIdx, h⟩
      let s := { s with currentReviewQuestionIndex := nextReviewIdx,
                        currentQuestionText := some nextReviewQItem.question }
      let s := fetchAndPlayNarration s nextReviewQItem.question reviewTts
      { s with currentStep := .questioning }
    else
      let s := { s with isReviewMode := false }
      handleQuizEnd s s.topic s.history summaryRes sumTts
  else
    fetchNextQuestion s s.topic s.history quizRes qTts summaryRes sumTts

/-- `handleStartReview` (part_002 lines 543-575).  With new below-threshold
items it merges them into the existing queue (first-occurrence dedupe by
question) and enters review; with none it falls through to `handleQuizEnd`
unless already on the summary screen.  The narration call is applied last:
its completion resolves after the synchronous state updates. -/
def handleStartReview (s : Session) (reviewTts : Except Unit TextToSpeechOutput)
    (summaryRes : Except String QuizSummaryOutput)
    (sumTts : Except Unit TextToSpeechOutput) : Session := match questionsToReviewNow s.history s.incorrectlyAnsweredQuestions with
  | firstReviewQuestionItem :: rest =>
    let qs := firstReviewQuestionItem :: rest
    let s := { s with
      incorrectlyAnsweredQuestions := dedupByQuestion (s.incorrectlyAnsweredQuestions ++ qs),
      isReviewMode := true, currentReviewQuestionIndex := 0,
      currentQuestionText := some firstReviewQuestionItem.question,
      currentExplanation := none, currentDetailedImagePrompt := none,
      currentGeneratedImageDataUri := none, showExplanationSection := false,
      currentAwardedPoints := none, currentAudioUri := none,
      currentStep := .questioning, errorMessage := none }
    fetchAndPlayNarration s firstReviewQuestionItem.question reviewTts
  | [] =>
    if s.currentStep ≠ .summary then handleQuizEnd s s.topic s.history summaryRes sumTts
    else s

/-- `handleRestartQuiz` (part_002 lines 577-620), in-component branch (no
`onGoToHome` callback): every session cell is reset to its initial value —
except `isFetchingAudio`, which the handler does not touch. -/
def handleRestartQuiz (s : Session) : Session :=
  { currentStep := .config
    topicIntroductionText := none
    currentQuestionText := none
    history := []
    incorrectlyAnsweredQuestions := []
    isReviewMode := false
    currentReviewQuestionIndex := 0
    summaryText := none
    furtherLearningSuggestions := none
    errorMessage := none
    topic := ""
    educationLevel := "HighSchool"
    language := .English
    hasPdfFile := false
    configPdfDataUri := none
    isPdfViewerOpen := false
    isLoading := false
    isEvaluating := false
    isGeneratingImage := false
    currentExplanation := none
    currentDetailedImagePrompt := none
    currentGeneratedImageDataUri := none
    showExplanationSection := false
    currentAwardedPoints := none
    currentUserScore := 0
    currentTotalPossibleScore := 0
    currentAudioUri := none
    isFetchingAudio := s.isFetchingAudio }

/-! ### The tsx revision of `handleAnswerSubmit`
(`src/components/quiz/KnowledgeQuizSession.tsx`, third segment, lines
1587-1706).  This older revision *replaces* the reviewed history item while
still updating both score cells incrementally. -/

/-- The `HistoryItem` interface of the tsx revision (its image field is
`imageSuggestion` rather than `detailedImagePrompt`). -/
structure HistoryItemTsx where
  question : String
  answer : String
  explanation : Option String := none
  imageSuggestion : Option String := none
  generatedImageDataUri : Option String := none
  awardedPoints : Option Int := none
  possiblePoints : Option Int := none
deriving DecidableEq, Repr

/-- The session cells of the tsx revision touched by its `handleAnswerSubmit`. -/
structure SessionTsx where
  currentQuestionText : Option String := none
  history : List HistoryItemTsx := []
  incorrectlyAnsweredQuestions : List HistoryItemTsx := []
  isReviewMode : Bool := false
  currentReviewQuestionIndex : Nat := 0
  currentUserScore : Int := 0
  currentTotalPossibleScore : Int := 0
  currentAwardedPoints : Option Int := none
  currentExplanation : Option String := none
  showExplanationSection : Bool := false
deriving DecidableEq, Repr

/-- The evaluation result as consumed by the tsx revision (`awardedScore` is
read directly, with no presence guard). -/
structure EvalOutputTsx where
  awardedScore : Int
  explanation : String
  imageSuggestion : Option String := none
deriving DecidableEq, Repr

/-- The sum of `awardedPoints` over a tsx history (an absent score counts 0),
the quantity the specification calls the fold of the current history. -/
def sumAwardedTsx (h : List HistoryItemTsx) : Int :=
  h.foldl (fun acc curr => acc + curr.awardedPoints.getD 0) 0

/-- `handleAnswerSubmit` of the tsx revision.  A throw of `evaluateAnswer`
(`evalRes = .error msg`) is absorbed: the item still gets score `0` and the
local error text as its explanation, and the flow continues to the history
update.  Both score cells are then bumped incrementally
(`setCurrentUserScore(prevScore => prevScore + awardedPointsForThisQuestion)`,
tsx lines 1658-1659); in review mode the queue entry at the cursor and the
matching main-history item are replaced in place (tsx lines 1673-1700). -/
def handleAnswerSubmitTsx (s : SessionTsx) (answer : String)
    (evalRes : Except String EvalOutputTsx)
    (imageRes : Except Unit (Option String)) : SessionTsx :=
  match s.currentQuestionText with
  | none => s
  | some q =>
    let (awardedPointsForThisQuestion, explanationText, aiImageSuggestion) :=
      match evalRes with
      | .ok out =>
        (out.awardedScore,
         if out.explanation == "" then
           "Score: " ++ toString out.awardedScore ++ "/" ++
             toString MAX_POINTS_PER_QUESTION ++ ". No detailed explanation provided."
         else out.explanation,
         out.imageSuggestion)
      | .error msg =>
        (0, "An error occurred while evaluating your answer: " ++ msg, none)
    let generatedImageForHistory :=
      match aiImageSuggestion, imageRes with
      | some _, .ok (some uri) => some uri
      | _, _ => none
    let s := { s with
      currentUserScore := s.currentUserScore + awardedPointsForThisQuestion,
      currentTotalPossibleScore := s.currentTotalPossibleScore + MAX_POINTS_PER_QUESTION,
      currentAwardedPoints := some awardedPointsForThisQuestion }
    let newHistoryItem : HistoryItemTsx :=
      { question := q
        answer := answer
        explanation := some explanationText
        imageSuggestion := aiImageSuggestion
        generatedImageDataUri := generatedImageForHistory
        awardedPoints := some awardedPointsForThisQuestion
        possiblePoints := some MAX_POINTS_PER_QUESTION }
    let s :=
      if s.isReviewMode then
        match s.incorrectlyAnsweredQuestions[s.currentReviewQuestionIndex]? with
        | none => s
        | some originalQuestionToUpdate =>
          let updatedReviewItem : HistoryItemTsx :=
            { originalQuestionToUpdate with
              answer := answer
              explanation := some explanationText
              imageSuggestion := aiImageSuggestion
              generatedImageDataUri := generatedImageForHistory
              awardedPoints := some awardedPointsForThisQuestion
              possiblePoints := some MAX_POINTS_PER_QUESTION }
          let s := { s with
            incorrectlyAnsweredQuestions :=
              s.incorrectlyAnsweredQuestions.set s.currentReviewQuestionIndex
                updatedReviewItem }
          match s.history.findIdx? (fun h => h.question == originalQuestionToUpdate.question) with
          | some mainHistoryIndex =>
            match s.history[mainHistoryIndex]? with
            | some orig =>
              let updatedMain : HistoryItemTsx :=
                { orig with
                  answer := answer
                  explanation := some explanationText
                  imageSuggestion := aiImageSuggestion
                  generatedImageDataUri := generatedImageForHistory
                  awardedPoints := some awardedPointsForThisQuestion }
              { s with history := s.history.set mainHistoryIndex updatedMain }
            | none => s
          | none => s
      else
        { s with history := s.history ++ [newHistoryItem] }
    { s with currentExplanation := some explanationText, showExplanationSection := true }

/-! ### Reachable session states (part_002) -/

/-- The zod output schema of the evaluation prompt
(`awardedScore: z.number().min(0).max(5)`): any output object the prompt call
returns without throwing has its score, when it is a number, within bounds. -/
def PromptSchemaOk (promptRes : Except String (Option RawEvalOutput)) : Prop :=
  ∀ o v, promptRes = .ok (some o) → o.awardedScore = some v →
    0 ≤ v ∧ v ≤ MAX_POINTS_PER_QUESTION

/-- Session states reachable through the part_002 handlers, each applied to
arbitrary resolved collaborator results.  The UI gating that the component
enforces is carried as hypotheses: the intro acknowledgement button exists
only on the introduction screen, and the answer form only on the questioning
screen. -/
inductive Reachable : Session → Prop where
  | init : Reachable initialSession
  | configSubmit (s : Session) (data : ConfigFormData)
      (pdfRes : Option (Except String String)) (introRes : Except String String)
      (ttsRes : Except Unit TextToSpeechOutput) :
      Reachable s → Reachable (handleConfigSubmit s data pdfRes introRes ttsRes)
  | proceedToQuestions (s : Session) (quizRes : Except String String)
      (qTts : Except Unit TextToSpeechOutput) (summaryRes : Except String QuizSummaryOutput)
      (sumTts : Except Unit TextToSpeechOutput) :
      Reachable s → s.currentStep = .introduction →
      Reachable (fetchInitialQuestion s s.topic quizRes qTts summaryRes sumTts)
  | answerSubmitFlow (s : Session) (answer : String)
      (language : Option SupportedLanguage) (topicP : String)
      (promptRes : Except String (Option RawEvalOutput))
      (imageRes : Except Unit (Option String)) (expTts : Except Unit TextToSpeechOutput) :
      Reachable s → s.currentStep = .questioning → PromptSchemaOk promptRes →
      Reachable (handleAnswerSubmit s answer
        (.ok (evaluateAnswerGenkitFlow language topicP promptRes)) imageRes expTts)
  | answerSubmitThrow (s : Session) (answer : String) (msg : String)
      (imageRes : Except Unit (Option String)) (expTts : Except Unit TextToSpeechOutput) :
      Reachable s → s.currentStep = .questioning →
      Reachable (handleAnswerSubmit s answer (.error msg) imageRes expTts)
  | proceedNext (s : Session) (quizRes : Except String String)
      (qTts : Except Unit TextToSpeechOutput) (summaryRes : Except String QuizSummaryOutput)
      (sumTts : Except Unit TextToSpeechOutput) (reviewTts : Except Unit TextToSpeechOutput) :
      Reachable s → s.currentStep = .questioning →
      Reachable (handleProceedToNextQuestion s quizRes qTts summaryRes sumTts reviewTts)
  | startReview (s : Session) (reviewTts : Except Unit TextToSpeechOutput)
      (summaryRes : Except String QuizSummaryOutput)
      (sumTts : Except Unit TextToSpeechOutput) :
      Reachable s → Reachable (handleStartReview s reviewTts summaryRes sumTts)
  | restart (s : Session) : Reachable s → Reachable (handleRestartQuiz s)

/-- The controller data-model invariant of part_002: both score cells agree
with the history (the running total is the fold of the history, the possible
total is five points per item), every recorded item carries a score within
the evaluator's 0..5 contract, the review queue is exactly the
below-threshold subset of the history, and on the introduction screen the
history is still empty. -/
def SessionInv (s : Session) : Prop :=
  s.currentUserScore = scoreFold s.history ∧
  s.currentTotalPossibleScore = (s.history.length : Int) * MAX_POINTS_PER_QUESTION ∧
  (∀ item ∈ s.history, ∃ v, item.awardedPoints = some v ∧ 0 ≤ v ∧ v ≤ MAX_POINTS_PER_QUESTION) ∧
  s.incorrectlyAnsweredQuestions = s.history.filter isReviewEligible ∧
  (s.currentStep = .introduction → s.history = [])

/-! ### Fold lemmas -/

theorem scoreFold_go (l : List HistoryItem) :
    ∀ init : Int,
      l.foldl (fun acc curr => acc + curr.awardedPoints.getD 0) init = init + scoreFold l := by
  induction l with
  | nil => intro init; simp [scoreFold]
  | cons x xs ih =>
    intro init
    rw [List.foldl_cons, ih]
    have hx : scoreFold (x :: xs) = 0 + x.awardedPoints.getD 0 + scoreFold xs := by
      rw [show scoreFold (x :: xs) =
            xs.foldl (fun acc curr => acc + curr.awardedPoints.getD 0)
              (0 + x.awardedPoints.getD 0) from rfl, ih]
    rw [hx]
    omega

theorem scoreFold_nil : scoreFold [] = 0 := rfl

theorem scoreFold_cons (x : HistoryItem) (xs : List HistoryItem) :
    scoreFold (x :: xs) = x.awardedPoints.getD 0 + scoreFold xs := by
  rw [show scoreFold (x :: xs) =
        xs.foldl (fun acc curr => acc + curr.awardedPoints.getD 0)
          (0 + x.awardedPoints.getD 0) from rfl, scoreFold_go]
  omega

theorem scoreFold_append (a b : List HistoryItem) :
    scoreFold (a ++ b) = scoreFold a + scoreFold b := by
  simp only [scoreFold, List.foldl_append]
  rw [scoreFold_go]
  rfl

theorem scoreFold_bounds (h : List HistoryItem)
    (hb : ∀ item ∈ h, ∃ v, item.awardedPoints = some v ∧ 0 ≤ v ∧
            v ≤ MAX_POINTS_PER_QUESTION) :
    0 ≤ scoreFold h ∧ scoreFold h ≤ (h.length : Int) * MAX_POINTS_PER_QUESTION := by
  induction h with
  | nil => simp [scoreFold]
  | cons x xs ih =>
    obtain ⟨v, hv, h0, h5⟩ := hb x (List.mem_cons_self x xs)
    obtain ⟨hl, hr⟩ := ih (fun i hi => hb i (List.mem_cons_of_mem x hi))
    rw [scoreFold_cons, hv]
    simp only [Option.getD_some, List.length_cons]
    push_cast
    constructor
    · omega
    · have : (xs.length : Int) * MAX_POINTS_PER_QUESTION + MAX_POINTS_PER_QUESTION =
          ((xs.length : Int) + 1) * MAX_POINTS_PER_QUESTION := by ring
      simp only [MAX_POINTS_PER_QUESTION] at *
      omega

/-! ### Invariant preservation -/

theorem sessionInv_init : SessionInv initialSession := by
  refine ⟨rfl, rfl, ?_, rfl, fun h => rfl⟩
  intro item hitem
  simp [initialSession] at hitem

theorem sessionInv_restart (s : Session) : SessionInv (handleRestartQuiz s) := by
  refine ⟨rfl, rfl, ?_, rfl, ?_⟩
  · intro item hitem
    simp [handleRestartQuiz] at hitem
  · intro h
    rfl

theorem sessionInv_handleQuizEnd (s : Session) (topicP : String)
    (finalHistory : List HistoryItem) (summaryRes : Except String QuizSummaryOutput)
    (ttsRes : Except Unit TextToSpeechOutput)
    (h1 : s.currentUserScore = scoreFold s.history)
    (h2 : s.currentTotalPossibleScore = (s.history.length : Int) * MAX_POINTS_PER_QUESTION)
    (h3 : ∀ item ∈ s.history, ∃ v, item.awardedPoints = some v ∧ 0 ≤ v ∧
            v ≤ MAX_POINTS_PER_QUESTION)
    (h4 : s.incorrectlyAnsweredQuestions = s.history.filter isReviewEligible)
    (hfin : finalHistory = s.history) :
    SessionInv (handleQuizEnd s topicP finalHistory summaryRes ttsRes) := by
  subst hfin
  unfold handleQuizEnd
  match summaryRes with
  | .ok out =>
    by_cases hgood : (!(out.summary == "") && !(jsTrim out.summary == "")) = true
    · simp only [hgood, if_true]
      exact ⟨rfl, rfl, h3, h4, fun h => by simp [fetchAndPlayNarration] at h⟩
    · simp only [Bool.not_eq_true] at hgood
      simp only [hgood, Bool.false_eq_true, if_false]
      exact ⟨h1, h2, h3, h4, fun h => by simp at h⟩
  | .error msg =>
    exact ⟨h1, h2, h3, h4, fun h => by simp at h⟩

theorem sessionInv_fetchTopicIntroduction (s : Session) (topicP : String)
    (langP : SupportedLanguage) (introRes : Except String String)
    (ttsRes : Except Unit TextToSpeechOutput)
    (hs : SessionInv s) (hemp : s.history = []) :
    SessionInv (fetchTopicIntroduction s topicP langP introRes ttsRes) := by
  obtain ⟨h1, h2, h3, h4, _⟩ := hs
  unfold fetchTopicIntroduction
  match introRes with
  | .ok t =>
    by_cases hu : introTextUsable t = true
    · simp only [hu, if_true]
      exact ⟨h1, h2, h3, h4, fun _ => hemp⟩
    · simp only [Bool.not_eq_true] at hu
      simp only [hu, Bool.false_eq_true, if_false]
      exact ⟨h1, h2, h3, h4, fun h => by simp at h⟩
  | .error msg =>
    exact ⟨h1, h2, h3, h4, fun h => by simp at h⟩

theorem sessionInv_handleConfigSubmit (s : Session) (data : ConfigFormData)
    (pdfRes : Option (Except String String)) (introRes : Except String String)
    (ttsRes : Except Unit TextToSpeechOutput) :
    SessionInv (handleConfigSubmit s data pdfRes introRes ttsRes) := by
  unfold handleConfigSubmit
  match pdfRes with
  | some (.error msg) =>
    exact ⟨rfl, rfl, by intro item h; simp at h, rfl, fun h => by simp at h⟩
  | some (.ok uri) =>
    exact sessionInv_fetchTopicIntroduction _ _ _ _ _
      ⟨rfl, rfl, by intro item h; simp at h, rfl, fun _ => rfl⟩ rfl
  | none =>
    exact sessionInv_fetchTopicIntroduction _ _ _ _ _
      ⟨rfl, rfl, by intro item h; simp at h, rfl, fun _ => rfl⟩ rfl

theorem sessionInv_fetchNextQuestion (s : Session) (topicP : String)
    (quizRes : Except String String) (qTts : Except Unit TextToSpeechOutput)
    (summaryRes : Except String QuizSummaryOutput)
    (sumTts : Except Unit TextToSpeechOutput) (hs : SessionInv s) :
    SessionInv (fetchNextQuestion s topicP s.history quizRes qTts summaryRes sumTts) := by
  obtain ⟨h1, h2, h3, h4, _⟩ := hs
  unfold fetchNextQuestion
  match quizRes with
  | .ok q =>
    by_cases hq : nextQuestionPresent q = true
    · simp only [hq, if_true]
      exact ⟨h1, h2, h3, h4, fun h => by simp [fetchAndPlayNarration] at h⟩
    · simp only [Bool.not_eq_true] at hq
      simp only [hq, Bool.false_eq_true, if_false]
      have hinner : SessionInv (handleQuizEnd
          { s with isLoading := true, currentStep := .loading, errorMessage := none }
          topicP s.history summaryRes sumTts) :=
        sessionInv_handleQuizEnd _ _ _ _ _ h1 h2 h3 h4 rfl
      obtain ⟨g1, g2, g3, g4, g5⟩ := hinner
      exact ⟨g1, g2, g3, g4, g5⟩
  | .error msg =>
    exact ⟨h1, h2, h3, h4, fun h => by simp at h⟩

theorem sessionInv_fetchInitialQuestion (s : Session) (topicP : String)
    (quizRes : Except String String) (qTts : Except Unit TextToSpeechOutput)
    (summaryRes : Except String QuizSummaryOutput)
    (sumTts : Except Unit TextToSpeechOutput)
    (hs : SessionInv s) (hemp : s.history = []) :
    SessionInv (fetchInitialQuestion s topicP quizRes qTts summaryRes sumTts) := by
  obtain ⟨h1, h2, h3, h4, _⟩ := hs
  unfold fetchInitialQuestion
  match quizRes with
  | .ok q =>
    by_cases hq : nextQuestionPresent q = true
    · simp only [hq, if_true]
      exact ⟨h1, h2, h3, h4, fun h => by simp [fetchAndPlayNarration] at h⟩
    · simp only [Bool.not_eq_true] at hq
      simp only [hq, Bool.false_eq_true, if_false]
      have hinner : SessionInv (handleQuizEnd
          { { s with isLoading := true, currentStep := .loading, errorMessage := none,
                     showExplanationSection := false, currentExplanation := none,
                     currentDetailedImagePrompt := none, currentGeneratedImageDataUri := none,
                     currentAwardedPoints := none, currentAudioUri := none } with
              errorMessage :=
                some ("Could not generate first question for \"" ++ topicP ++ "\".") }
          topicP [] summaryRes sumTts) :=
        sessionInv_handleQuizEnd _ _ _ _ _ h1 h2 h3 h4 hemp.symm
      obtain ⟨g1, g2, g3, g4, g5⟩ := hinner
      exact ⟨g1, g2, g3, g4, g5⟩
  | .error msg =>
    exact ⟨h1, h2, h3, h4, fun h => by simp at h⟩

/-- `evaluateAnswerGenkitFlow` always returns a present score, and the score
is within the 0..5 output-schema contract whenever raw scores are. -/
theorem evalFlow_awardedScore_bounds (language : Option SupportedLanguage) (topicP : String)
    (promptRes : Except String (Option RawEvalOutput)) (hok : PromptSchemaOk promptRes) :
    ∃ v, (evaluateAnswerGenkitFlow language topicP promptRes).awardedScore = some v ∧
      0 ≤ v ∧ v ≤ MAX_POINTS_PER_QUESTION := by
  unfold evaluateAnswerGenkitFlow
  match hpr : promptRes with
  | .ok none => exact ⟨0, rfl, by norm_num [MAX_POINTS_PER_QUESTION]⟩
  | .error msg => exact ⟨0, rfl, by norm_num [MAX_POINTS_PER_QUESTION]⟩
  | .ok (some o) =>
    cases hsc : o.awardedScore with
    | none =>
      cases hex : o.explanation with
      | none => simp only [hsc, hex]; exact ⟨0, rfl, by norm_num [MAX_POINTS_PER_QUESTION]⟩
      | some e => simp only [hsc, hex]; exact ⟨0, rfl, by norm_num [MAX_POINTS_PER_QUESTION]⟩
    | some sc =>
      cases hex : o.explanation with
      | none => simp only [hsc, hex]; exact ⟨0, rfl, by norm_num [MAX_POINTS_PER_QUESTION]⟩
      | some e =>
        simp only [hsc, hex]
        by_cases he : (e == "") = true
        · simp only [he, if_true]
          exact ⟨0, rfl, by norm_num [MAX_POINTS_PER_QUESTION]⟩
        · simp only [Bool.not_eq_true] at he
          simp only [he, Bool.false_eq_true, if_false]
          exact ⟨sc, rfl, hok o sc rfl hsc⟩

theorem sessionInv_handleAnswerSubmit_ok (s : Session) (answer : String)
    (out : EvaluateAnswerOutput) (imageRes : Except Unit (Option String))
    (expTts : Except Unit TextToSpeechOutput)
    (hs : SessionInv s) (hstep : s.currentStep = .questioning)
    (hscore : ∃ v, out.awardedScore = some v ∧ 0 ≤ v ∧ v ≤ MAX_POINTS_PER_QUESTION) :
    SessionInv (handleAnswerSubmit s answer (.ok out) imageRes expTts) := by
  obtain ⟨h1, h2, h3, h4, _⟩ := hs
  obtain ⟨v, hv, hv0, hv5⟩ := hscore
  unfold handleAnswerSubmit
  simp only [hv, fetchAndPlayNarration]
  by_cases hexp : (!(out.explanation == "")) = true <;>
    simp only [hexp, if_true, Bool.not_eq_true] at * <;>
    [skip; simp only [hexp, Bool.false_eq_true, if_false]] <;>
  by_cases hlt : v < REVIEW_SCORE_THRESHOLD <;>
    [simp only [if_pos hlt]; simp only [if_neg hlt];
     simp only [if_pos hlt]; simp only [if_neg hlt]] <;>
  refine ⟨?_, ?_, ?_, ?_, ?_⟩ <;>
    dsimp only
  case _ => rw [scoreFold_append, scoreFold_cons, scoreFold_nil]; simp only [Option.getD_some]; omega
  case _ =>
    simp only [List.length_append, List.length_cons, List.length_nil]
    push_cast
    simp only [MAX_POINTS_PER_QUESTION] at h2 ⊢
    omega
  case _ =>
    intro item hitem
    rcases List.mem_append.mp hitem with hmem | hmem
    · exact h3 item hmem
    · rcases List.mem_singleton.mp hmem with rfl
      exact ⟨v, rfl, hv0, hv5⟩
  case _ =>
    simp only [List.filter_append, h4]
    simp [List.filter, isReviewEligible, hlt]
  case _ =>
    intro h
    rw [hstep] at h
    simp at h
  case _ => rw [scoreFold_append, scoreFold_cons, scoreFold_nil]; simp only [Option.getD_some]; omega
  case _ =>
    simp only [List.length_append, List.length_cons, List.length_nil]
    push_cast
    simp only [MAX_POINTS_PER_QUESTION] at h2 ⊢
    omega
  case _ =>
    intro item hitem
    rcases List.mem_append.mp hitem with hmem | hmem
    · exact h3 item hmem
    · rcases List.mem_singleton.mp hmem with rfl
      exact ⟨v, rfl, hv0, hv5⟩
  case _ =>
    simp only [List.filter_append, h4]
    simp [List.filter, isReviewEligible, hlt]
  case _ =>
    intro h
    rw [hstep] at h
    simp at h
  case _ => rw [scoreFold_append, scoreFold_cons, scoreFold_nil]; simp only [Option.getD_some]; omega
  case _ =>
    simp only [List.length_append, List.length_cons, List.length_nil]
    push_cast
    simp only [MAX_POINTS_PER_QUESTION] at h2 ⊢
    omega
  case _ =>
    intro item hitem
    rcases List.mem_append.mp hitem with hmem | hmem
    · exact h3 item hmem
    · rcases List.mem_singleton.mp hmem with rfl
      exact ⟨v, rfl, hv0, hv5⟩
  case _ =>
    simp only [List.filter_append, h4]
    simp [List.filter, isReviewEligible, hlt]
  case _ =>
    intro h
    rw [hstep] at h
    simp at h
  case _ => rw [scoreFold_append, scoreFold_cons, scoreFold_nil]; simp only [Option.getD_some]; omega
  case _ =>
    simp only [List.length_append, List.length_cons, List.length_nil]
    push_cast
    simp only [MAX_POINTS_PER_QUESTION] at h2 ⊢
    omega
  case _ =>
    intro item hitem
    rcases List.mem_append.mp hitem with hmem | hmem
    · exact h3 item hmem
    · rcases List.mem_singleton.mp hmem with rfl
      exact ⟨v, rfl, hv0, hv5⟩
  case _ =>
    simp only [List.filter_append, h4]
    simp [List.filter, isReviewEligible, hlt]
  case _ =>
    intro h
    rw [hstep] at h
    simp at h

theorem sessionInv_handleAnswerSubmit_err (s : Session) (answer msg : String)
    (imageRes : Except Unit (Option String)) (expTts : Except Unit TextToSpeechOutput)
    (hs : SessionInv s) :
    SessionInv (handleAnswerSubmit s answer (.error msg) imageRes expTts) := by
  obtain ⟨h1, h2, h3, h4, _⟩ := hs
  unfold handleAnswerSubmit
  exact ⟨h1, h2, h3, h4, fun h => by simp at h⟩

/-- When the queue already is the below-threshold subset of the history, the
`handleStartReview` filter finds nothing new: every eligible item's question
already occurs in the queue (namely on the item itself). -/
theorem questionsToReviewNow_self (h : List HistoryItem) :
    questionsToReviewNow h (h.filter isReviewEligible) = [] := by
  unfold questionsToReviewNow
  rw [List.filter_eq_nil_iff]
  intro a ha hcontra
  rw [Bool.and_eq_true] at hcontra
  obtain ⟨he, hnotany⟩ := hcontra
  rw [Bool.not_eq_true'] at hnotany
  have hany : (h.filter isReviewEligible).any (fun r => r.question == a.question) = true :=
    List.any_eq_true.mpr ⟨a, List.mem_filter.mpr ⟨ha, he⟩, beq_self_eq_true a.question⟩
  rw [hany] at hnotany
  exact Bool.noConfusion hnotany

theorem sessionInv_handleStartReview (s : Session)
    (reviewTts : Except Unit TextToSpeechOutput)
    (summaryRes : Except String QuizSummaryOutput)
    (sumTts : Except Unit TextToSpeechOutput) (hs : SessionInv s) :
    SessionInv (handleStartReview s reviewTts summaryRes sumTts) := by
  obtain ⟨h1, h2, h3, h4, h5⟩ := hs
  unfold handleStartReview
  have hempty : questionsToReviewNow s.history s.incorrectlyAnsweredQuestions = [] := by
    rw [h4]; exact questionsToReviewNow_self s.history
  rw [hempty]
  by_cases hsum : s.currentStep = .summary
  · simp only [hsum]
    simp only [ne_eq, not_true_eq_false, if_false]
    exact ⟨h1, h2, h3, h4, h5⟩
  · simp only [ne_eq, hsum, not_false_eq_true, if_true]
    exact sessionInv_handleQuizEnd _ _ _ _ _ h1 h2 h3 h4 rfl

theorem sessionInv_handleProceedToNextQuestion (s : Session)
    (quizRes : Except String String) (qTts : Except Unit TextToSpeechOutput)
    (summaryRes : Except String QuizSummaryOutput)
    (sumTts : Except Unit TextToSpeechOutput)
    (reviewTts : Except Unit TextToSpeechOutput) (hs : SessionInv s) :
    SessionInv (handleProceedToNextQuestion s quizRes qTts summaryRes sumTts reviewTts) := by
  obtain ⟨h1, h2, h3, h4, h5⟩ := hs
  unfold handleProceedToNextQuestion
  by_cases hrev : s.isReviewMode = true
  · simp only [hrev, if_true]
    split
    · exact ⟨h1, h2, h3, h4, fun h => by simp [fetchAndPlayNarration] at h⟩
    · exact sessionInv_handleQuizEnd _ _ _ _ _ h1 h2 h3 h4 rfl
  · simp only [Bool.not_eq_true] at hrev
    simp only [hrev, Bool.false_eq_true, if_false]
    exact sessionInv_fetchNextQuestion _ _ _ _ _ _ ⟨h1, h2, h3, h4, h5⟩

/-- Every part_002-reachable session state satisfies the controller data-model
invariant. -/
theorem reachable_sessionInv {s : Session} (h : Reachable s) : SessionInv s := by
  induction h with
  | init => exact sessionInv_init
  | configSubmit s data pdfRes introRes ttsRes _ _ =>
    exact sessionInv_handleConfigSubmit s data pdfRes introRes ttsRes
  | proceedToQuestions s quizRes qTts summaryRes sumTts _ hstep ih =>
    exact sessionInv_fetchInitialQuestion s s.topic quizRes qTts summaryRes sumTts ih
      (ih.2.2.2.2 hstep)
  | answerSubmitFlow s answer language topicP promptRes imageRes expTts _ hstep hok ih =>
    exact sessionInv_handleAnswerSubmit_ok s answer _ imageRes expTts ih hstep
      (evalFlow_awardedScore_bounds language topicP promptRes hok)
  | answerSubmitThrow s answer msg imageRes expTts _ _ ih =>
    exact sessionInv_handleAnswerSubmit_err s answer msg imageRes expTts ih
  | proceedNext s quizRes qTts summaryRes sumTts reviewTts _ _ ih =>
    exact sessionInv_handleProceedToNextQuestion s quizRes qTts summaryRes sumTts reviewTts ih
  | startReview s reviewTts summaryRes sumTts _ ih =>
    exact sessionInv_handleStartReview s reviewTts summaryRes sumTts ih
  | restart s _ _ => exact sessionInv_restart s

/-! ### Dedup lemmas -/

theorem mem_dedupByQuestion_sub (x : HistoryItem) :
    ∀ l : List HistoryItem, x ∈ dedupByQuestion l → x ∈ l := by
  have key : ∀ (n : Nat) (l : List HistoryItem), l.length ≤ n →
      x ∈ dedupByQuestion l → x ∈ l := by
    intro n
    induction n with
    | zero =>
      intro l hl h
      cases l with
      | nil => rw [dedupByQuestion] at h; exact absurd h (List.not_mem_nil x)
      | cons y ys => simp at hl
    | succ n ih =>
      intro l hl h
      cases l with
      | nil => rw [dedupByQuestion] at h; exact absurd h (List.not_mem_nil x)
      | cons y ys =>
        rw [dedupByQuestion] at h
        rcases List.mem_cons.mp h with rfl | h
        · exact List.mem_cons_self _ _
        · have hle : (ys.filter fun z => !(z.question == y.question)).length ≤ n := by
            have := List.length_filter_le (fun z => !(z.question == y.question)) ys
            simp only [List.length_cons] at hl
            omega
          exact List.mem_cons_of_mem _ (List.mem_of_mem_filter (ih _ hle h))
  intro l
  exact key l.length l (Nat.le_refl _)

theorem dedupByQuestion_complete (x : HistoryItem) :
    ∀ l : List HistoryItem, x ∈ l →
      ∃ y ∈ dedupByQuestion l, y.question = x.question := by
  have key : ∀ (n : Nat) (l : List HistoryItem), l.length ≤ n → x ∈ l →
      ∃ y ∈ dedupByQuestion l, y.question = x.question := by
    intro n
    induction n with
    | zero =>
      intro l hl h
      cases l with
      | nil => exact absurd h (List.not_mem_nil x)
      | cons y ys => simp at hl
    | succ n ih =>
      intro l hl h
      cases l with
      | nil => exact absurd h (List.not_mem_nil x)
      | cons y ys =>
        rw [dedupByQuestion]
        rcases List.mem_cons.mp h with rfl | h
        · exact ⟨x, List.mem_cons_self _ _, rfl⟩
        · by_cases hq : x.question = y.question
          · exact ⟨y, List.mem_cons_self _ _, hq.symm⟩
          · have hmemf : x ∈ ys.filter (fun z => !(z.question == y.question)) := by
              refine List.mem_filter.mpr ⟨h, ?_⟩
              simp only [Bool.not_eq_true', beq_eq_false_iff_ne, ne_eq]
              exact hq
            have hle : (ys.filter fun z => !(z.question == y.question)).length ≤ n := by
              have := List.length_filter_le (fun z => !(z.question == y.question)) ys
              simp only [List.length_cons] at hl
              omega
            obtain ⟨z, hz, hzq⟩ := ih _ hle hmemf
            exact ⟨z, List.mem_cons_of_mem _ hz, hzq⟩
  intro l
  exact key l.length l (Nat.le_refl _)

theorem dedupByQuestion_pairwise :
    ∀ l : List HistoryItem,
      (dedupByQuestion l).Pairwise (fun a b => a.question ≠ b.question) := by
  have key : ∀ (n : Nat) (l : List HistoryItem), l.length ≤ n →
      (dedupByQuestion l).Pairwise (fun a b => a.question ≠ b.question) := by
    intro n
    induction n with
    | zero =>
      intro l hl
      cases l with
      | nil => rw [dedupByQuestion]; exact List.Pairwise.nil
      | cons y ys => simp at hl
    | succ n ih =>
      intro l hl
      cases l with
      | nil => rw [dedupByQuestion]; exact List.Pairwise.nil
      | cons y ys =>
        rw [dedupByQuestion]
        have hle : (ys.filter fun z => !(z.question == y.question)).length ≤ n := by
          have := List.length_filter_le (fun z => !(z.question == y.question)) ys
          simp only [List.length_cons] at hl
          omega
        refine List.pairwise_cons.mpr ⟨?_, ih _ hle⟩
        intro z hz
        have hzf := mem_dedupByQuestion_sub z _ hz
        have hne := (List.mem_filter.mp hzf).2
        simp only [Bool.not_eq_true', beq_eq_false_iff_ne, ne_eq] at hne
        exact fun hc => hne (hc ▸ rfl)
  intro l
  exact key l.length l (Nat.le_refl _)

/-! ### Fallback-text lemmas -/

theorem string_append_ne_empty_right (a b : String) (hb : b.data ≠ []) : a ++ b ≠ "" := by
  intro h
  have hd := congrArg String.data h
  rw [String.data_append] at hd
  rw [show ("" : String).data = [] from rfl] at hd
  exact hb (List.append_eq_nil.mp hd).2

theorem invalidEvalFallbackText_ne_empty (lang : SupportedLanguage) :
    invalidEvalFallbackText lang ≠ "" := by
  cases lang <;> decide

theorem evalErrorFallbackText_ne_empty (lang : SupportedLanguage) (topicP detail : String) :
    evalErrorFallbackText lang topicP detail ≠ "" := by
  cases lang <;>
    exact string_append_ne_empty_right _ _ (by decide)

/-! ### Concrete witness states -/

/-- The prompt result of a successful evaluation awarding 2 of 5 points
(the spec's Scenario A). -/
def promptResScore2 : Except String (Option RawEvalOutput) :=
  .ok (some { awardedScore := some 2, explanation := some "Partially correct.",
              imageSuggestion := none })

theorem promptResScore2_schemaOk : PromptSchemaOk promptResScore2 := by
  intro o v h1 h2
  simp only [promptResScore2, Except.ok.injEq, Option.some.injEq] at h1
  subst h1
  simp only [Option.some.injEq] at h2
  subst h2
  decide

/-- The session after submitting the Scenario A configuration
(topic Photosynthesis, HighSchool, English, no PDF) with a usable
introduction. -/
def sessionAfterConfig : Session :=
  handleConfigSubmit initialSession
    { topic := "Photosynthesis", educationLevel := "HighSchool", language := .English }
    none (.ok "An introduction to photosynthesis.") (.ok { audioDataUri := none })

/-- The session after the first question arrives. -/
def sessionAfterFirstQuestion : Session :=
  fetchInitialQuestion sessionAfterConfig sessionAfterConfig.topic
    (.ok "What pigment absorbs light?") (.ok { audioDataUri := none })
    (.error "unused") (.ok { audioDataUri := none })

/-- The session after the first answer is evaluated with score 2 of 5. -/
def sessionAfterFirstAnswer : Session :=
  handleAnswerSubmit sessionAfterFirstQuestion "It is chlorophyll."
    (.ok (evaluateAnswerGenkitFlow (some .English) "Photosynthesis" promptResScore2))
    (.ok none) (.ok { audioDataUri := none })

theorem reachable_sessionAfterConfig : Reachable sessionAfterConfig :=
  Reachable.configSubmit initialSession
    { topic := "Photosynthesis", educationLevel := "HighSchool", language := .English }
    none (.ok "An introduction to photosynthesis.") (.ok { audioDataUri := none })
    Reachable.init

theorem reachable_sessionAfterFirstQuestion : Reachable sessionAfterFirstQuestion :=
  Reachable.proceedToQuestions sessionAfterConfig
    (.ok "What pigment absorbs light?") (.ok { audioDataUri := none })
    (.error "unused") (.ok { audioDataUri := none })
    reachable_sessionAfterConfig (by decide)

theorem reachable_sessionAfterFirstAnswer : Reachable sessionAfterFirstAnswer :=
  Reachable.answerSubmitFlow sessionAfterFirstQuestion "It is chlorophyll."
    (some .English) "Photosynthesis" promptResScore2 (.ok none)
    (.ok { audioDataUri := none })
    reachable_sessionAfterFirstQuestion (by decide) promptResScore2_schemaOk

/-! ### Claim theorems -/

/-- C1: in every reachable state the review queue — the set consulted when
review is offered or started — is exactly the history items that have been
scored below the threshold of 3 out of 5; an item whose score equals the
threshold is not eligible (strict `<`), and an item that was never evaluated
(`awardedPoints` absent) is never eligible. -/
theorem review_eligible_set_exact (s : Session) (hr : Reachable s) :
    s.incorrectlyAnsweredQuestions = s.history.filter isReviewEligible ∧
    (∀ item : HistoryItem, isReviewEligible item = true ↔
      ∃ p, item.awardedPoints = some p ∧ p < REVIEW_SCORE_THRESHOLD) ∧
    (∀ item : HistoryItem, item.awardedPoints = some REVIEW_SCORE_THRESHOLD →
      isReviewEligible item = false) ∧
    (∀ item : HistoryItem, item.awardedPoints = none → isReviewEligible item = false) := by
  refine ⟨(reachable_sessionInv hr).2.2.2.1, ?_, ?_, ?_⟩
  · intro item
    constructor
    · intro he
      unfold isReviewEligible at he
      cases hp : item.awardedPoints with
      | none => rw [hp] at he; exact Bool.noConfusion he
      | some p => rw [hp] at he; exact ⟨p, rfl, of_decide_eq_true he⟩
    · rintro ⟨p, hp, hlt⟩
      unfold isReviewEligible
      rw [hp]
      exact decide_eq_true hlt
  · intro item hp
    unfold isReviewEligible
    rw [hp]
    simp
  · intro item hp
    unfold isReviewEligible
    rw [hp]

/-- C1 witness: the review-eligible characterisation instantiated at the
Scenario-A session (one question answered with score 2 of 5). -/
theorem review_eligible_set_exact_witness :
    sessionAfterFirstAnswer.incorrectlyAnsweredQuestions =
      sessionAfterFirstAnswer.history.filter isReviewEligible ∧
    (∀ item : HistoryItem, isReviewEligible item = true ↔
      ∃ p, item.awardedPoints = some p ∧ p < REVIEW_SCORE_THRESHOLD) ∧
    (∀ item : HistoryItem, item.awardedPoints = some REVIEW_SCORE_THRESHOLD →
      isReviewEligible item = false) ∧
    (∀ item : HistoryItem, item.awardedPoints = none → isReviewEligible item = false) :=
  review_eligible_set_exact sessionAfterFirstAnswer reachable_sessionAfterFirstAnswer

/-- C5: restarting from any state yields a session with empty history, the
configuration phase, zero running and possible scores, an empty review queue,
and no pending narration text or audio (the question, introduction,
explanation and summary texts and the audio URI are all cleared). -/
theorem restart_resets_session (s : Session) :
    (handleRestartQuiz s).history = [] ∧
    (handleRestartQuiz s).currentStep = .config ∧
    (handleRestartQuiz s).currentUserScore = 0 ∧
    (handleRestartQuiz s).currentTotalPossibleScore = 0 ∧
    (handleRestartQuiz s).incorrectlyAnsweredQuestions = [] ∧
    (handleRestartQuiz s).currentAudioUri = none ∧
    (handleRestartQuiz s).topicIntroductionText = none ∧
    (handleRestartQuiz s).currentQuestionText = none ∧
    (handleRestartQuiz s).currentExplanation = none ∧
    (handleRestartQuiz s).summaryText = none ∧
    (handleRestartQuiz s).isReviewMode = false ∧
    (handleRestartQuiz s).currentReviewQuestionIndex = 0 :=
  ⟨rfl, rfl, rfl, rfl, rfl, rfl, rfl, rfl, rfl, rfl, rfl, rfl⟩

/-- C6 counterexample: a well-formed interleaving in which narration request 1
is issued while request 0 is still in flight, request 1's audio arrives first
and request 0's arrives last.  The channel ends up playing the audio of
request 0 — the superseded request, not the most recent one — because the
completion handler compares no request token. -/
theorem stale_narration_not_discarded :
    TraceWF [.issue 0, .issue 1, .complete 1 (some "audio-of-request-1"),
             .complete 0 (some "audio-of-request-0")] = true ∧
    latestIssued [.issue 0, .issue 1, .complete 1 (some "audio-of-request-1"),
                  .complete 0 (some "audio-of-request-0")] = some 1 ∧
    (narrationRun [.issue 0, .issue 1, .complete 1 (some "audio-of-request-1"),
                   .complete 0 (some "audio-of-request-0")]).live =
      some (0, "audio-of-request-0") ∧
    (narrationRun [.issue 0, .issue 1, .complete 1 (some "audio-of-request-1"),
                   .complete 0 (some "audio-of-request-0")]).live.map Prod.fst ≠
      latestIssued [.issue 0, .issue 1, .complete 1 (some "audio-of-request-1"),
                    .complete 0 (some "audio-of-request-0")] := by
  refine ⟨?_, rfl, rfl, ?_⟩ <;> decide

/-- C6 amended: `fetchAndPlayNarration` keeps at most one narration result
live (a single `currentAudioUri` cell, cleared on issue), but supersession is
by completion order, not request order: there is no request token, so every
successful completion unconditionally becomes the live audio, whichever
request it belongs to. -/
theorem narration_last_completion_wins :
    (∀ (c : NarrationChannel) (id : Nat) (uri : String),
      narrationStep c (.complete id (some uri)) =
        { live := some (id, uri), isFetchingAudio := false }) ∧
    (∀ (c : NarrationChannel) (id : Nat),
      (narrationStep c (.issue id)).live = none ∧
      (narrationStep c (.issue id)).isFetchingAudio = true) :=
  ⟨fun _ _ _ => rfl, fun _ _ => ⟨rfl, rfl⟩⟩

/-- C7: in every reachable state the total possible score is the history
length times the constant per-question maximum of 5 and the running total
lies between 0 and the possible total; and a submission whose evaluation
carries no score leaves both sums unchanged (a question never evaluated
contributes nothing). -/
theorem score_sums_invariant (s : Session) (hr : Reachable s) :
    s.currentTotalPossibleScore = (s.history.length : Int) * MAX_POINTS_PER_QUESTION ∧
    0 ≤ s.currentUserScore ∧
    s.currentUserScore ≤ s.currentTotalPossibleScore ∧
    (∀ (answer : String) (out : EvaluateAnswerOutput)
       (imageRes : Except Unit (Option String)) (expTts : Except Unit TextToSpeechOutput),
      out.awardedScore = none →
      (handleAnswerSubmit s answer (.ok out) imageRes expTts).currentUserScore =
          s.currentUserScore ∧
        (handleAnswerSubmit s answer (.ok out) imageRes expTts).currentTotalPossibleScore =
          s.currentTotalPossibleScore) := by
  obtain ⟨h1, h2, h3, _, _⟩ := reachable_sessionInv hr
  obtain ⟨hge, hle⟩ := scoreFold_bounds s.history h3
  refine ⟨h2, ?_, ?_, ?_⟩
  · rw [h1]; exact hge
  · rw [h1, h2]; exact hle
  · intro answer out imageRes expTts hnone
    unfold handleAnswerSubmit
    simp only [hnone, fetchAndPlayNarration]
    by_cases hexp : (!(out.explanation == "")) = true <;>
      simp [hexp]

/-- C7 witness: the score invariant instantiated at the Scenario-A session
(one item, score 2, possible 5). -/
theorem score_sums_invariant_witness :
    sessionAfterFirstAnswer.currentTotalPossibleScore =
      (sessionAfterFirstAnswer.history.length : Int) * MAX_POINTS_PER_QUESTION ∧
    0 ≤ sessionAfterFirstAnswer.currentUserScore ∧
    sessionAfterFirstAnswer.currentUserScore ≤
      sessionAfterFirstAnswer.currentTotalPossibleScore ∧
    (∀ (answer : String) (out : EvaluateAnswerOutput)
       (imageRes : Except Unit (Option String)) (expTts : Except Unit TextToSpeechOutput),
      out.awardedScore = none →
      (handleAnswerSubmit sessionAfterFirstAnswer answer (.ok out) imageRes
            expTts).currentUserScore =
          sessionAfterFirstAnswer.currentUserScore ∧
        (handleAnswerSubmit sessionAfterFirstAnswer answer (.ok out) imageRes
            expTts).currentTotalPossibleScore =
          sessionAfterFirstAnswer.currentTotalPossibleScore) :=
  score_sums_invariant sessionAfterFirstAnswer reachable_sessionAfterFirstAnswer

/-- The shapes of a question-generation output that are malformed rather than
a thrown error: absent output object, absent or null `nextQuestion`, or a
non-string `nextQuestion`. -/
def MalformedQuizOutput (raw : Option RawQuizOutput) : Prop :=
  raw = none ∨ ∃ o, raw = some o ∧
    (o.nextQuestion = none ∨ o.nextQuestion = some .nonString)

/-- C10: the `knowledgeQuizFlow` wrapper never throws on a malformed
`nextQuestion` shape — it returns `{ nextQuestion: "" }` — and the controller
cannot distinguish that from the normal end-of-quiz signal: the
`nextQuestionPresent` test it branches on is false for both. -/
theorem malformed_question_is_end_signal (raw : Option RawQuizOutput)
    (h : MalformedQuizOutput raw) :
    knowledgeQuizFlow raw = "" ∧
    nextQuestionPresent (knowledgeQuizFlow raw) = false ∧
    nextQuestionPresent (knowledgeQuizFlow raw) = nextQuestionPresent "" := by
  have hempty : knowledgeQuizFlow raw = "" := by
    rcases h with rfl | ⟨o, rfl, h2 | h2⟩
    · rfl
    · simp [knowledgeQuizFlow, h2]
    · simp [knowledgeQuizFlow, h2]
  exact ⟨hempty, by rw [hempty]; decide, by rw [hempty]⟩

/-- C10 witness: a non-string `nextQuestion` value is normalised to the
end-of-quiz signal. -/
theorem malformed_question_is_end_signal_witness :
    knowledgeQuizFlow (some { nextQuestion := some .nonString }) = "" ∧
    nextQuestionPresent (knowledgeQuizFlow (some { nextQuestion := some .nonString })) =
      false ∧
    nextQuestionPresent (knowledgeQuizFlow (some { nextQuestion := some .nonString })) =
      nextQuestionPresent "" :=
  malformed_question_is_end_signal (some { nextQuestion := some .nonString })
    (Or.inr ⟨_, rfl, Or.inr rfl⟩)

/-- C9: a narration request with empty or whitespace-only text is a no-op
that issues no text-to-speech request (it only clears the audio cell and the
fetching flag); the text-to-speech flow returns an absent-audio result rather
than throwing for a missing API key, a generation throw or an empty stream;
and a failed or absent-audio narration leaves the channel silently with no
audio, changing no phase, error message, history or score of the session. -/
theorem narration_blank_noop_failure_silent :
    (∀ text : String, jsTrim text = "" → narrationIssuesRequest text = false) ∧
    (∀ (s : Session) (text : String) (ttsRes : Except Unit TextToSpeechOutput),
      jsTrim text = "" →
      fetchAndPlayNarration s text ttsRes =
        { s with currentAudioUri := none, isFetchingAudio := false }) ∧
    (∀ (apiKey : Option String) (text : String) (gen : Except Unit (List String)),
      apiKey = none ∨ apiKey = some "" ∨ gen = .error () ∨ gen = .ok [] →
      (textToSpeechGenkitFlow apiKey text gen).audioDataUri = none) ∧
    (∀ (s : Session) (text : String) (ttsRes : Except Unit TextToSpeechOutput),
      ttsRes = .error () ∨ ttsRes = .ok { audioDataUri := none } →
      (fetchAndPlayNarration s text ttsRes).currentAudioUri = none ∧
      (fetchAndPlayNarration s text ttsRes).currentStep = s.currentStep ∧
      (fetchAndPlayNarration s text ttsRes).errorMessage = s.errorMessage ∧
      (fetchAndPlayNarration s text ttsRes).history = s.history ∧
      (fetchAndPlayNarration s text ttsRes).currentUserScore = s.currentUserScore) := by
  refine ⟨?_, ?_, ?_, ?_⟩
  · intro text ht
    simp [narrationIssuesRequest, ht]
  · intro s text ttsRes ht
    simp [fetchAndPlayNarration, narrationResultUri, ht]
  · intro apiKey text gen hcase
    rcases hcase with rfl | rfl | rfl | rfl
    · rfl
    · simp [textToSpeechGenkitFlow]
    · cases apiKey with
      | none => rfl
      | some key =>
        by_cases hk : (key == "") = true <;>
          by_cases htb : (text == "" || jsTrim text == "") = true <;>
          simp [textToSpeechGenkitFlow, hk, htb]
    · cases apiKey with
      | none => rfl
      | some key =>
        by_cases hk : (key == "") = true <;>
          by_cases htb : (text == "" || jsTrim text == "") = true <;>
          simp [textToSpeechGenkitFlow, hk, htb]
  · intro s text ttsRes hcase
    rcases hcase with rfl | rfl <;>
      exact ⟨by simp [fetchAndPlayNarration, narrationResultUri, ite_self],
             rfl, rfl, rfl, rfl⟩

/-- C9 witness: whitespace text issues no request; an unset API key yields no
audio; a thrown text-to-speech call leaves the idle session without audio. -/
theorem narration_blank_noop_failure_silent_witness :
    narrationIssuesRequest "   " = false ∧
    (textToSpeechGenkitFlow none "Hello there" (.ok ["chunk"])).audioDataUri = none ∧
    (fetchAndPlayNarration initialSession "Hello there" (.error ())).currentAudioUri =
      none ∧
    (fetchAndPlayNarration initialSession "Hello there" (.error ())).currentStep =
      initialSession.currentStep :=
  ⟨narration_blank_noop_failure_silent.1 "   " (by decide),
   narration_blank_noop_failure_silent.2.2.1 none "Hello there" (.ok ["chunk"])
     (Or.inl rfl),
   (narration_blank_noop_failure_silent.2.2.2 initialSession "Hello there" (.error ())
     (Or.inl rfl)).1,
   (narration_blank_noop_failure_silent.2.2.2 initialSession "Hello there" (.error ())
     (Or.inl rfl)).2.1⟩

/-- A tsx-revision state in review mode: one question answered with score 2
of 5, queued for review, cursor at 0, running total 2 of 5. -/
def tsxReviewState : SessionTsx :=
  { currentQuestionText := some "Q1"
    history := [{ question := "Q1", answer := "old answer",
                  explanation := some "old explanation",
                  awardedPoints := some 2, possiblePoints := some 5 }]
    incorrectlyAnsweredQuestions :=
      [{ question := "Q1", answer := "old answer",
         explanation := some "old explanation",
         awardedPoints := some 2, possiblePoints := some 5 }]
    isReviewMode := true
    currentReviewQuestionIndex := 0
    currentUserScore := 2
    currentTotalPossibleScore := 5 }

/-- C2 counterexample: in the tsx revision cited by the claim, re-answering
the reviewed item (old score 2) with new score 4 replaces the history item —
the current history folds to 4 — while the running total becomes the previous
total plus the new score, 2 + 4 = 6.  The total therefore does not equal the
fold of the history as it stands after the replacement. -/
theorem review_reanswer_total_is_delta_not_fold :
    (handleAnswerSubmitTsx tsxReviewState "new answer"
        (.ok { awardedScore := 4, explanation := "Good." }) (.ok none)).currentUserScore =
      6 ∧
    sumAwardedTsx (handleAnswerSubmitTsx tsxReviewState "new answer"
        (.ok { awardedScore := 4, explanation := "Good." }) (.ok none)).history = 4 ∧
    (handleAnswerSubmitTsx tsxReviewState "new answer"
        (.ok { awardedScore := 4, explanation := "Good." }) (.ok none)).currentUserScore ≠
      sumAwardedTsx (handleAnswerSubmitTsx tsxReviewState "new answer"
        (.ok { awardedScore := 4, explanation := "Good." }) (.ok none)).history ∧
    (handleAnswerSubmitTsx tsxReviewState "new answer"
        (.ok { awardedScore := 4, explanation := "Good." }) (.ok none)).currentUserScore =
      tsxReviewState.currentUserScore + 4 := by
  refine ⟨?_, ?_, ?_, ?_⟩ <;> decide

/-- C2 amended: every answer submission updates the running total
incrementally (previous total plus the newly awarded score).  In the newest
revision (part_002) every submission — review or not — appends a fresh
history item, so the incremental total still equals the fold of the current
history after every submission from a reachable state; in the tsx revision a
review re-answer replaces the history item in place while the total still
grows by the full new score, so there the total no longer equals the fold of
the replaced history (it exceeds it by the item's previous score).  The fold
equality is re-established wholesale only by `handleQuizEnd`'s re-fold. -/
theorem score_update_incremental_amended :
    (∀ (s : Session) (answer : String) (language : Option SupportedLanguage)
       (topicP : String) (promptRes : Except String (Option RawEvalOutput))
       (imageRes : Except Unit (Option String)) (expTts : Except Unit TextToSpeechOutput),
      Reachable s → s.currentStep = .questioning → PromptSchemaOk promptRes →
      (handleAnswerSubmit s answer
          (.ok (evaluateAnswerGenkitFlow language topicP promptRes)) imageRes
          expTts).currentUserScore =
        scoreFold (handleAnswerSubmit s answer
          (.ok (evaluateAnswerGenkitFlow language topicP promptRes)) imageRes
          expTts).history) ∧
    (∀ (s : SessionTsx) (q answer : String) (out : EvalOutputTsx)
       (imageRes : Except Unit (Option String)),
      s.currentQuestionText = some q →
      (handleAnswerSubmitTsx s answer (.ok out) imageRes).currentUserScore =
        s.currentUserScore + out.awardedScore) := by
  constructor
  · intro s answer language topicP promptRes imageRes expTts hr hstep hok
    have hpost := reachable_sessionInv
      (Reachable.answerSubmitFlow s answer language topicP promptRes imageRes expTts
        hr hstep hok)
    exact hpost.1
  · intro s q answer out imageRes hq
    unfold handleAnswerSubmitTsx
    simp only [hq]
    by_cases hrev : s.isReviewMode = true <;> simp only [hrev]
    · cases hidx : s.incorrectlyAnsweredQuestions[s.currentReviewQuestionIndex]? with
      | none => simp [hidx]
      | some orig =>
        simp only [hidx]
        cases hfind : s.history.findIdx? (fun h => h.question == orig.question) with
        | none => simp [hfind]
        | some j =>
          simp only [hfind]
          cases hget : s.history[j]? with
          | none => simp [hget]
          | some origMain => simp [hget]
    · simp

/-- C2 amended witness: the fold equality at the Scenario-A submission
(part_002) and the incremental update at the tsx review re-answer. -/
theorem score_update_incremental_amended_witness :
    (handleAnswerSubmit sessionAfterFirstQuestion "It is chlorophyll."
        (.ok (evaluateAnswerGenkitFlow (some .English) "Photosynthesis" promptResScore2))
        (.ok none) (.ok { audioDataUri := none })).currentUserScore =
      scoreFold (handleAnswerSubmit sessionAfterFirstQuestion "It is chlorophyll."
        (.ok (evaluateAnswerGenkitFlow (some .English) "Photosynthesis" promptResScore2))
        (.ok none) (.ok { audioDataUri := none })).history ∧
    (handleAnswerSubmitTsx tsxReviewState "new answer"
        (.ok { awardedScore := 4, explanation := "Good." }) (.ok none)).currentUserScore =
      tsxReviewState.currentUserScore +
        ({ awardedScore := 4, explanation := "Good." } : EvalOutputTsx).awardedScore :=
  ⟨score_update_incremental_amended.1 sessionAfterFirstQuestion "It is chlorophyll."
     (some .English) "Photosynthesis" promptResScore2 (.ok none)
     (.ok { audioDataUri := none }) reachable_sessionAfterFirstQuestion (by decide)
     promptResScore2_schemaOk,
   score_update_incremental_amended.2 tsxReviewState "Q1" "new answer"
     { awardedScore := 4, explanation := "Good." } (.ok none) rfl⟩

/-- The evaluation-prompt outcomes `evaluateAnswerGenkitFlow` treats as
failure: a throw, an absent output, a non-numeric score, or a missing or
empty explanation. -/
def EvalPromptFailed (promptRes : Except String (Option RawEvalOutput)) : Prop :=
  (∃ msg, promptRes = .error msg) ∨ promptRes = .ok none ∨
  ∃ o, promptRes = .ok (some o) ∧
    (o.awardedScore = none ∨ o.explanation = none ∨ o.explanation = some "")

/-- C3: when the evaluation collaborator fails or returns an invalid result,
the flow substitutes awarded score 0 with a non-empty fallback explanation;
the controller then appends a history item carrying score 0 and that
explanation, shows the explanation section, and stays on the questioning
screen — never the error state.  Even a transport-level throw of the
`evaluateAnswer` call only resets to the questioning screen, never `error`. -/
theorem evaluator_failure_recoverable (language : Option SupportedLanguage)
    (topicP : String) (promptRes : Except String (Option RawEvalOutput))
    (s : Session) (answer : String) (imageRes : Except Unit (Option String))
    (expTts : Except Unit TextToSpeechOutput)
    (hfail : EvalPromptFailed promptRes) (hstep : s.currentStep = .questioning) :
    (evaluateAnswerGenkitFlow language topicP promptRes).awardedScore = some 0 ∧
    (evaluateAnswerGenkitFlow language topicP promptRes).explanation ≠ "" ∧
    (handleAnswerSubmit s answer
        (.ok (evaluateAnswerGenkitFlow language topicP promptRes)) imageRes
        expTts).currentStep = .questioning ∧
    (handleAnswerSubmit s answer
        (.ok (evaluateAnswerGenkitFlow language topicP promptRes)) imageRes
        expTts).currentStep ≠ .error ∧
    (handleAnswerSubmit s answer
        (.ok (evaluateAnswerGenkitFlow language topicP promptRes)) imageRes
        expTts).showExplanationSection = true ∧
    (∃ item : HistoryItem,
      (handleAnswerSubmit s answer
          (.ok (evaluateAnswerGenkitFlow language topicP promptRes)) imageRes
          expTts).history = s.history ++ [item] ∧
      item.awardedPoints = some 0 ∧
      item.explanation = some (evaluateAnswerGenkitFlow language topicP promptRes).explanation) ∧
    (∀ msg : String,
      (handleAnswerSubmit s answer (.error msg) imageRes expTts).currentStep =
        .questioning ∧
      (handleAnswerSubmit s answer (.error msg) imageRes expTts).currentStep ≠ .error) := by
  have hout : (evaluateAnswerGenkitFlow language topicP promptRes).awardedScore = some 0 ∧
      (evaluateAnswerGenkitFlow language topicP promptRes).explanation ≠ "" := by
    rcases hfail with ⟨msg, rfl⟩ | rfl | ⟨o, rfl, hb | hb | hb⟩
    · exact ⟨rfl, evalErrorFallbackText_ne_empty _ _ _⟩
    · exact ⟨rfl, invalidEvalFallbackText_ne_empty _⟩
    · unfold evaluateAnswerGenkitFlow
      cases hex : o.explanation with
      | none => simp only [hb, hex]; exact ⟨trivial, invalidEvalFallbackText_ne_empty _⟩
      | some e => simp only [hb, hex]; exact ⟨trivial, invalidEvalFallbackText_ne_empty _⟩
    · unfold evaluateAnswerGenkitFlow
      cases hsc : o.awardedScore with
      | none => simp only [hsc, hb]; exact ⟨trivial, invalidEvalFallbackText_ne_empty _⟩
      | some sc => simp only [hsc, hb]; exact ⟨trivial, invalidEvalFallbackText_ne_empty _⟩
    · unfold evaluateAnswerGenkitFlow
      cases hsc : o.awardedScore with
      | none => simp only [hsc, hb]; exact ⟨trivial, invalidEvalFallbackText_ne_empty _⟩
      | some sc =>
        simp only [hsc, hb]
        simp only [show (("" : String) == "") = true from rfl, if_true]
        exact ⟨trivial, invalidEvalFallbackText_ne_empty _⟩
  obtain ⟨hsc0, hexpl⟩ := hout
  have hctrl : ∀ outw : EvaluateAnswerOutput, outw.awardedScore = some 0 →
      (handleAnswerSubmit s answer (.ok outw) imageRes expTts).currentStep =
        s.currentStep ∧
      (handleAnswerSubmit s answer (.ok outw) imageRes expTts).showExplanationSection =
        true ∧
      ∃ item : HistoryItem,
        (handleAnswerSubmit s answer (.ok outw) imageRes expTts).history =
          s.history ++ [item] ∧
        item.awardedPoints = some 0 ∧ item.explanation = some outw.explanation := by
    intro outw hw
    unfold handleAnswerSubmit
    simp only [hw, fetchAndPlayNarration]
    rw [if_pos (show (0 : Int) < REVIEW_SCORE_THRESHOLD by norm_num [REVIEW_SCORE_THRESHOLD])]
    by_cases hexp : (!(outw.explanation == "")) = true <;>
      simp only [hexp, if_true, Bool.false_eq_true, if_false] <;>
      exact ⟨trivial, trivial, ⟨_, rfl, rfl, rfl⟩⟩
  obtain ⟨hq1, hq2, hq3⟩ := hctrl _ hsc0
  refine ⟨hsc0, hexpl, hq1.trans hstep, ?_, hq2, hq3, ?_⟩
  · rw [hq1, hstep]; decide
  · intro msg
    have herr : (handleAnswerSubmit s answer (.error msg) imageRes expTts).currentStep =
        .questioning := by
      unfold handleAnswerSubmit
      rfl
    exact ⟨herr, by rw [herr]; decide⟩

/-- C3 witness: a thrown evaluation call ("Model overloaded") at the
questioning screen of the Scenario-A session: score 0, non-empty fallback
explanation, explanation shown, step stays questioning. -/
theorem evaluator_failure_recoverable_witness :
    (evaluateAnswerGenkitFlow (some .English) "Photosynthesis"
        (.error "Model overloaded")).awardedScore = some 0 ∧
    (evaluateAnswerGenkitFlow (some .English) "Photosynthesis"
        (.error "Model overloaded")).explanation ≠ "" ∧
    (handleAnswerSubmit sessionAfterFirstQuestion "It is chlorophyll."
        (.ok (evaluateAnswerGenkitFlow (some .English) "Photosynthesis"
          (.error "Model overloaded"))) (.ok none)
        (.ok { audioDataUri := none })).currentStep = .questioning ∧
    (handleAnswerSubmit sessionAfterFirstQuestion "It is chlorophyll."
        (.ok (evaluateAnswerGenkitFlow (some .English) "Photosynthesis"
          (.error "Model overloaded"))) (.ok none)
        (.ok { audioDataUri := none })).currentStep ≠ .error ∧
    (handleAnswerSubmit sessionAfterFirstQuestion "It is chlorophyll."
        (.ok (evaluateAnswerGenkitFlow (some .English) "Photosynthesis"
          (.error "Model overloaded"))) (.ok none)
        (.ok { audioDataUri := none })).showExplanationSection = true ∧
    (∃ item : HistoryItem,
      (handleAnswerSubmit sessionAfterFirstQuestion "It is chlorophyll."
          (.ok (evaluateAnswerGenkitFlow (some .English) "Photosynthesis"
            (.error "Model overloaded"))) (.ok none)
          (.ok { audioDataUri := none })).history =
        sessionAfterFirstQuestion.history ++ [item] ∧
      item.awardedPoints = some 0 ∧
      item.explanation = some (evaluateAnswerGenkitFlow (some .English) "Photosynthesis"
        (.error "Model overloaded")).explanation) ∧
    (∀ msg : String,
      (handleAnswerSubmit sessionAfterFirstQuestion "It is chlorophyll."
          (.error msg) (.ok none) (.ok { audioDataUri := none })).currentStep =
        .questioning ∧
      (handleAnswerSubmit sessionAfterFirstQuestion "It is chlorophyll."
          (.error msg) (.ok none) (.ok { audioDataUri := none })).currentStep ≠ .error) :=
  evaluator_failure_recoverable (some .English) "Photosynthesis" (.error "Model overloaded")
    sessionAfterFirstQuestion "It is chlorophyll." (.ok none) (.ok { audioDataUri := none })
    (Or.inl ⟨"Model overloaded", rfl⟩) (by decide)

/-- C4: an empty or whitespace-only next-question value fails the
`nextQuestionPresent` test, so the controller routes to `handleQuizEnd`
(summarisation) rather than to the error branch — the literal state equation
for `fetchNextQuestion` shows the routing; and on the very first fetch
(history still empty) with a usable summary the session lands on the summary
screen with empty history and a total possible score of 0, not on the error
screen. -/
theorem empty_question_signals_summary (s : Session) (topicP q : String)
    (qTts sumTts : Except Unit TextToSpeechOutput)
    (summaryRes : Except String QuizSummaryOutput) (out : QuizSummaryOutput)
    (hq : jsTrim q = "") (hemp : s.history = [])
    (hsum : summaryRes = .ok out)
    (hsumok : (!(out.summary == "") && !(jsTrim out.summary == "")) = true) :
    nextQuestionPresent q = false ∧
    (∀ (s2 : Session) (topicP2 : String)
       (qTts2 sumTts2 : Except Unit TextToSpeechOutput)
       (summaryRes2 : Except String QuizSummaryOutput),
      fetchNextQuestion s2 topicP2 s2.history (.ok q) qTts2 summaryRes2 sumTts2 =
        { handleQuizEnd
            { s2 with isLoading := true, currentStep := .loading, errorMessage := none }
            topicP2 s2.history summaryRes2 sumTts2 with isLoading := false }) ∧
    (fetchInitialQuestion s topicP (.ok q) qTts summaryRes sumTts).currentStep =
      .summary ∧
    (fetchInitialQuestion s topicP (.ok q) qTts summaryRes sumTts).history = [] ∧
    (fetchInitialQuestion s topicP (.ok q) qTts summaryRes
        sumTts).currentTotalPossibleScore = 0 ∧
    (fetchInitialQuestion s topicP (.ok q) qTts summaryRes sumTts).currentStep ≠
      .error := by
  have hnp : nextQuestionPresent q = false := by
    simp [nextQuestionPresent, hq]
  refine ⟨hnp, ?_, ?_⟩
  · intro s2 topicP2 qTts2 sumTts2 summaryRes2
    unfold fetchNextQuestion
    simp only [hnp, Bool.false_eq_true, if_false]
  · subst hsum
    unfold fetchInitialQuestion
    simp only [hnp, Bool.false_eq_true, if_false]
    unfold handleQuizEnd
    simp only [hsumok, if_true, fetchAndPlayNarration]
    refine ⟨trivial, hemp, ?_, ?_⟩
    · decide
    · intro h
      simp at h

/-- C4 witness: Scenario B — the very first question fetch returns the empty
string from the freshly configured session; the controller summarises with
empty history and possible score 0. -/
theorem empty_question_signals_summary_witness :
    nextQuestionPresent "" = false ∧
    (∀ (s2 : Session) (topicP2 : String)
       (qTts2 sumTts2 : Except Unit TextToSpeechOutput)
       (summaryRes2 : Except String QuizSummaryOutput),
      fetchNextQuestion s2 topicP2 s2.history (.ok "") qTts2 summaryRes2 sumTts2 =
        { handleQuizEnd
            { s2 with isLoading := true, currentStep := .loading, errorMessage := none }
            topicP2 s2.history summaryRes2 sumTts2 with isLoading := false }) ∧
    (fetchInitialQuestion sessionAfterConfig "Photosynthesis" (.ok "")
        (.ok { audioDataUri := none })
        (.ok { summary := "You answered no questions.", furtherLearningSuggestions := none })
        (.ok { audioDataUri := none })).currentStep = .summary ∧
    (fetchInitialQuestion sessionAfterConfig "Photosynthesis" (.ok "")
        (.ok { audioDataUri := none })
        (.ok { summary := "You answered no questions.", furtherLearningSuggestions := none })
        (.ok { audioDataUri := none })).history = [] ∧
    (fetchInitialQuestion sessionAfterConfig "Photosynthesis" (.ok "")
        (.ok { audioDataUri := none })
        (.ok { summary := "You answered no questions.", furtherLearningSuggestions := none })
        (.ok { audioDataUri := none })).currentTotalPossibleScore = 0 ∧
    (fetchInitialQuestion sessionAfterConfig "Photosynthesis" (.ok "")
        (.ok { audioDataUri := none })
        (.ok { summary := "You answered no questions.", furtherLearningSuggestions := none })
        (.ok { audioDataUri := none })).currentStep ≠ .error :=
  empty_question_signals_summary sessionAfterConfig "Photosynthesis" ""
    (.ok { audioDataUri := none }) (.ok { audioDataUri := none })
    (.ok { summary := "You answered no questions.", furtherLearningSuggestions := none })
    { summary := "You answered no questions.", furtherLearningSuggestions := none }
    (by decide) (by decide) rfl (by decide)

/-- C8: when `handleStartReview` finds new below-threshold items, it merges
them into the existing queue instead of replacing it: the installed queue is
the first-occurrence dedupe of old queue followed by the new batch, so every
previously queued item's question is preserved, the queue holds no two
entries with the same question, and every below-threshold history item's
question is represented. -/
theorem start_review_merges_queue (s : Session)
    (reviewTts : Except Unit TextToSpeechOutput)
    (summaryRes : Except String QuizSummaryOutput)
    (sumTts : Except Unit TextToSpeechOutput)
    (first : HistoryItem) (rest : List HistoryItem)
    (hnew : questionsToReviewNow s.history s.incorrectlyAnsweredQuestions =
      first :: rest) :
    (handleStartReview s reviewTts summaryRes sumTts).incorrectlyAnsweredQuestions =
      dedupByQuestion (s.incorrectlyAnsweredQuestions ++ (first :: rest)) ∧
    (∀ x ∈ s.incorrectlyAnsweredQuestions,
      ∃ y ∈ (handleStartReview s reviewTts summaryRes sumTts).incorrectlyAnsweredQuestions,
        y.question = x.question) ∧
    ((handleStartReview s reviewTts summaryRes
        sumTts).incorrectlyAnsweredQuestions).Pairwise
      (fun a b => a.question ≠ b.question) ∧
    (∀ x ∈ s.history, isReviewEligible x = true →
      ∃ y ∈ (handleStartReview s reviewTts summaryRes sumTts).incorrectlyAnsweredQuestions,
        y.question = x.question) := by
  have hqueue : (handleStartReview s reviewTts summaryRes
      sumTts).incorrectlyAnsweredQuestions =
      dedupByQuestion (s.incorrectlyAnsweredQuestions ++ (first :: rest)) := by
    unfold handleStartReview
    rw [hnew]
    simp [fetchAndPlayNarration]
  refine ⟨hqueue, ?_, ?_, ?_⟩
  · intro x hx
    rw [hqueue]
    exact dedupByQuestion_complete x _ (List.mem_append_left _ hx)
  · rw [hqueue]
    exact dedupByQuestion_pairwise _
  · intro x hx he
    rw [hqueue]
    by_cases hq : (s.incorrectlyAnsweredQuestions.any
        (fun r => r.question == x.question)) = true
    · obtain ⟨r, hr, hrq⟩ := List.any_eq_true.mp hq
      obtain ⟨y, hy, hyq⟩ := dedupByQuestion_complete r _ (List.mem_append_left _ hr)
      exact ⟨y, hy, by rw [hyq]; exact eq_of_beq hrq⟩
    · have hxnew : x ∈ first :: rest := by
        rw [← hnew]
        refine List.mem_filter.mpr ⟨hx, ?_⟩
        simp only [Bool.and_eq_true, he, true_and, Bool.not_eq_true']
        exact (Bool.not_eq_true _).mp hq
      exact dedupByQuestion_complete x _ (List.mem_append_right _ hxnew)

/-- A raw state with a previously queued item Q1 and a new below-threshold
item Q2 not yet queued: starting review must merge Q2 with Q1, not replace. -/
def startReviewMergeState : Session :=
  { initialSession with
    currentStep := .summary
    history :=
      [{ question := "Q1", answer := "a1", awardedPoints := some 1,
         possiblePoints := some 5 },
       { question := "Q2", answer := "a2", awardedPoints := some 2,
         possiblePoints := some 5 }]
    incorrectlyAnsweredQuestions :=
      [{ question := "Q1", answer := "a1", awardedPoints := some 1,
         possiblePoints := some 5 }] }

/-- C8 witness: starting review on `startReviewMergeState` merges the new Q2
item into the queue that already holds Q1. -/
theorem start_review_merges_queue_witness :
    (handleStartReview startReviewMergeState (.ok { audioDataUri := none })
        (.error "unused") (.ok { audioDataUri := none })).incorrectlyAnsweredQuestions =
      dedupByQuestion (startReviewMergeState.incorrectlyAnsweredQuestions ++
        ([{ question := "Q2", answer := "a2", awardedPoints := some 2,
            possiblePoints := some 5 }] : List HistoryItem)) ∧
    (∀ x ∈ startReviewMergeState.incorrectlyAnsweredQuestions,
      ∃ y ∈ (handleStartReview startReviewMergeState (.ok { audioDataUri := none })
          (.error "unused")
          (.ok { audioDataUri := none })).incorrectlyAnsweredQuestions,
        y.question = x.question) ∧
    ((handleStartReview startReviewMergeState (.ok { audioDataUri := none })
        (.error "unused")
        (.ok { audioDataUri := none })).incorrectlyAnsweredQuestions).Pairwise
      (fun a b => a.question ≠ b.question) ∧
    (∀ x ∈ startReviewMergeState.history, isReviewEligible x = true →
      ∃ y ∈ (handleStartReview startReviewMergeState (.ok { audioDataUri := none })
          (.error "unused")
          (.ok { audioDataUri := none })).incorrectlyAnsweredQuestions,
        y.question = x.question) :=
  start_review_merges_queue startReviewMergeState (.ok { audioDataUri := none })
    (.error "unused") (.ok { audioDataUri := none })
    { question := "Q2", answer := "a2", awardedPoints := some 2,
      possiblePoints := some 5 } [] (by decide)

end StudyPad
